import Mathlib

/-!
# Castor billing test client (`src/client-nodejs/index.js`)

A shallow embedding of the sequential integration-test client: the four
presenter functions, the eight step functions and `ejecutarPruebas`.

* Values received over HTTP are JSON values (`Json`); a JavaScript value that
  may also be `undefined` is a `JsVal` (`none` is `undefined`).
* The program runs in the monad `Js`: explicit state (the HTTP calls issued
  so far and the console lines printed so far) plus JavaScript exceptions.
  State written before a `throw` is kept, as in JavaScript.
* The billing server is a parameter: a function from the calls already
  received and the current request to a reply.
* Text is kept symbolic (`Txt`): the rendering of a value by a template
  literal, by `JSON.stringify` or by `toLocaleString` is a constructor
  applied to that value; only whether the rendering THROWS is computed.
  The colour getters of the `colors` package (`.cyan`, `.green.bold`, ...)
  decorate a string and are not represented, except that reading one on
  `undefined` is a `TypeError`.
-/

namespace Castor

/-! ## JavaScript values -/

/-- A value produced by `JSON.parse` (what axios stores in `response.data`;
a body that is not JSON text stays a string).  A number is the rational
value of the parsed double; an object is the list of its own properties. -/
inductive Json where
  | null
  | bool (b : Bool)
  | num (q : Rat)
  | str (s : String)
  | arr (xs : List Json)
  | obj (kvs : List (String × Json))

/-- A JavaScript value that may be `undefined` (`none`). -/
abbrev JsVal := Option Json

/-- Own-property lookup in a parsed object. -/
def lookupKey (k : String) : List (String × Json) → Option Json
  | [] => none
  | (k', v) :: rest => if k' = k then some v else lookupKey k rest

/-- Whether the parsed object has an own property `k`. -/
def hasKey (k : String) (kvs : List (String × Json)) : Bool :=
  (lookupKey k kvs).isSome

/-- JavaScript truthiness, the test of `if (data)`. -/
def truthy : JsVal → Bool
  | none => false
  | some .null => false
  | some (.bool b) => b
  | some (.num q) => decide (q ≠ 0)
  | some (.str s) => decide (s ≠ "")
  | some (.arr _) => true
  | some (.obj _) => true

mutual
/-- Whether `String(v)` (a template-literal substitution) throws for a parsed
value.  An object is converted by `OrdinaryToPrimitive`: an own property
`toString` is never callable and the inherited `valueOf` returns the object,
so the conversion throws exactly when the object has an own `toString`.
An array is converted by `join`, which converts every element other than
`null`. -/
def Json.toStringThrows : Json → Bool
  | .obj kvs => hasKey "toString" kvs
  | .arr xs => Json.anyToStringThrows xs
  | _ => false
/-- Some element of the array makes `join` throw. -/
def Json.anyToStringThrows : List Json → Bool
  | [] => false
  | x :: xs => x.toStringThrows || Json.anyToStringThrows xs
end

mutual
/-- Whether `v.toLocaleString('es-CO')` throws for a parsed value.  `null`
has no properties.  For an object an own property `toLocaleString` is not
callable; the inherited method invokes `toString`, which an own property
hides as well.  `Array.prototype.toLocaleString` invokes the method on every
element other than `null`. -/
def Json.toLocaleStringThrows : Json → Bool
  | .null => true
  | .obj kvs => hasKey "toLocaleString" kvs || hasKey "toString" kvs
  | .arr xs => Json.anyToLocaleStringThrows xs
  | _ => false
/-- Some element of the array makes `toLocaleString` throw. -/
def Json.anyToLocaleStringThrows : List Json → Bool
  | [] => false
  | .null :: xs => Json.anyToLocaleStringThrows xs
  | x :: xs => x.toLocaleStringThrows || Json.anyToLocaleStringThrows xs
end

/-- Length of a string in UTF-16 code units, the value of `s.length`. -/
def utf16Length (s : String) : Nat :=
  (s.data.map (fun c => if c.toNat < 65536 then 1 else 2)).sum

/-- The value of `v.p` for a parsed value `v` other than `null` and a
property name `p` that no prototype defines (`id`, `numeroFactura`,
`subtotal`, `impuestos`, `descuentos`, `total`). -/
def field (p : String) : Json → JsVal
  | .obj kvs => lookupKey p kvs
  | _ => none

/-- The value of `v.length` for a parsed value `v` other than `null`. -/
def lengthOf : Json → JsVal
  | .str s => some (.num (utf16Length s))
  | .arr xs => some (.num xs.length)
  | .obj kvs => lookupKey "length" kvs
  | _ => none

/-! ## Text, requests, errors -/

/-- A piece of text.  Renderings of values are symbolic. -/
inductive Txt where
  /-- A string known to the program. -/
  | lit (s : String)
  /-- The string `s.repeat(n)`. -/
  | rep (s : String) (n : Nat)
  /-- The substitution of a value in a template literal. -/
  | tpl (v : JsVal)
  /-- The string `JSON.stringify(v, null, 2)`. -/
  | json (v : Json)
  /-- The string `v.toLocaleString('es-CO')`. -/
  | locale (v : Json)
  /-- A number passed to `console.log` (an HTTP status). -/
  | status (n : Nat)
  /-- The string `new Date().toLocaleString('es-CO')`. -/
  | now

/-- One `console.log` call: its text, argument after argument and piece
after piece. -/
abbrev Line := List Txt

inductive Method where
  | GET
  | POST
  | PUT

/-- One axios call: method, URL (a template literal) and, for `post` and
`put`, the object literal sent as body. -/
structure Request where
  method : Method
  url : List Txt
  body : Option (List (String × JsVal))

/-- What axios stores in `response` / `error.response`. -/
structure Response where
  status : Nat
  data : Json

/-- What the network gives back for one call. -/
inductive Reply where
  | response (r : Response)
  | noResponse (message : String)

/-- The billing API: the calls received before, then the current call. -/
abbrev Server := List Request → Request → Reply

/-- A thrown value, seen through the two properties the program reads.
An `AxiosError` for a status outside 2xx has both; a transport error and a
`TypeError` have only `message`; the object literal `{}` has neither. -/
structure JsError where
  response : Option Response
  message : Option String

/-- A `TypeError` raised by the engine (the message text is the engine's). -/
def typeError (message : String) : JsError := ⟨none, some message⟩

/-! ## The execution monad -/

/-- Observable state of the process. -/
structure World where
  /-- HTTP calls issued so far, oldest first. -/
  calls : List Request
  /-- Console lines printed so far, oldest first. -/
  out : List Line

/-- A computation that may throw; the state survives a throw. -/
def Js (α : Type) : Type := World → Except JsError α × World

instance : Monad Js where
  pure a := fun w => (.ok a, w)
  bind m f := fun w =>
    match m w with
    | (.ok a, w1) => f a w1
    | (.error e, w1) => (.error e, w1)

instance : MonadExcept JsError Js where
  throw e := fun w => (.error e, w)
  tryCatch m h := fun w =>
    match m w with
    | (.ok a, w1) => (.ok a, w1)
    | (.error e, w1) => h e w1

/-- The call `console.log(...)`. -/
def consoleLog (l : Line) : Js Unit :=
  fun w => (.ok (), { w with out := w.out ++ [l] })

/-- The property read `v.p` (see `field`); `null` has no properties. -/
def getField (p : String) : Json → Js JsVal
  | .null => throw (typeError ("Cannot read properties of null, reading " ++ p))
  | v => pure (field p v)

/-- The property read `v.length`. -/
def getLength : Json → Js JsVal
  | .null => throw (typeError "Cannot read properties of null, reading length")
  | v => pure (lengthOf v)

/-- A template-literal substitution. -/
def template : JsVal → Js Txt
  | none => pure (.tpl none)
  | some v =>
    if v.toStringThrows then throw (typeError "Cannot convert object to primitive value")
    else pure (.tpl (some v))

/-- The call `v.toLocaleString('es-CO')`. -/
def toLocaleString : JsVal → Js Txt
  | none => throw (typeError "Cannot read properties of undefined, reading toLocaleString")
  | some v =>
    if v.toLocaleStringThrows then throw (typeError "toLocaleString is not a function")
    else pure (.locale v)

/-- The expression `JSON.stringify(v, null, 2).gray`: `JSON.stringify` of
`undefined` is `undefined`, which has no `gray`. -/
def jsonStringifyGray : JsVal → Js Txt
  | none => throw (typeError "Cannot read properties of undefined, reading gray")
  | some v => pure (.json v)

/-- The expression `m.gray` for `m = error.message`. -/
def messageGray : Option String → Js Txt
  | none => throw (typeError "Cannot read properties of undefined, reading gray")
  | some m => pure (.lit m)

/-- The default `validateStatus` of axios. -/
def validateStatus (status : Nat) : Bool :=
  decide (200 ≤ status) && decide (status < 300)

/-- An axios call: it is recorded, the server answers, and axios resolves
with the response for a 2xx status and rejects otherwise. -/
def axios (srv : Server) (req : Request) : Js Response :=
  fun w =>
    let w1 : World := { w with calls := w.calls ++ [req] }
    match srv w.calls req with
    | .response r =>
      if validateStatus r.status then (.ok r, w1)
      else (.error ⟨some r, some ("Request failed with status code " ++ toString r.status)⟩, w1)
    | .noResponse m => (.error ⟨none, some m⟩, w1)

/-! ## Presenter -/

def mostrarTitulo (titulo : List Txt) : Js Unit := do
  consoleLog [.lit "\n", .rep "=" 80]
  consoleLog (.lit "  " :: titulo)
  consoleLog [.rep "=" 80, .lit "\n"]

def mostrarExito (mensaje : List Txt) (data : JsVal) : Js Unit := do
  consoleLog (.lit "✓" :: .lit " " :: mensaje)
  if truthy data then
    consoleLog [← jsonStringifyGray data]
  consoleLog [.lit ""]

def mostrarError (mensaje : List Txt) (error : JsError) : Js Unit := do
  consoleLog (.lit "✗" :: .lit " " :: mensaje)
  match error.response with
  | some r =>
    consoleLog [.lit "Status:", .status r.status]
    consoleLog [.lit "Error:", ← jsonStringifyGray (some r.data)]
  | none =>
    consoleLog [.lit "Error:", ← messageGray error.message]
  consoleLog [.lit ""]

def mostrarInfo (mensaje : List Txt) : Js Unit :=
  consoleLog (.lit "ℹ" :: .lit " " :: mensaje)

/-! ## Fixtures -/

def jstr (s : String) : JsVal := some (.str s)

def jnum (n : Nat) : JsVal := some (.num n)

/-- The object literal `clienteData` of step 1. -/
def clienteData : List (String × JsVal) :=
  [ ("nombre", jstr "Empresa de Prueba S.A.S."),
    ("nit", jstr "900123456-7"),
    ("email", jstr "contacto@empresaprueba.com"),
    ("telefono", jstr "3001234567"),
    ("direccion", jstr "Calle 100 #15-20, Bogotá"),
    ("activo", some (.bool true)) ]

/-- The object literal `clienteActualizado` of step 7. -/
def clienteActualizado : List (String × JsVal) :=
  [ ("nombre", jstr "Empresa de Prueba S.A.S. - Actualizada"),
    ("nit", jstr "900123456-7"),
    ("email", jstr "nuevo@empresaprueba.com"),
    ("telefono", jstr "3109876543"),
    ("direccion", jstr "Carrera 7 #32-40, Bogotá"),
    ("activo", some (.bool true)) ]

/-- One element of an `items` array. -/
def item (descripcion : String) (cantidad precioUnitario porcentajeImpuesto
    porcentajeDescuento : Nat) : Json :=
  .obj [ ("descripcion", .str descripcion),
         ("cantidad", .num cantidad),
         ("precioUnitario", .num precioUnitario),
         ("porcentajeImpuesto", .num porcentajeImpuesto),
         ("porcentajeDescuento", .num porcentajeDescuento) ]

/-- The object literal `facturaData` of step 4. -/
def facturaData (clienteId : JsVal) : List (String × JsVal) :=
  [ ("clienteId", clienteId),
    ("items", some (.arr
      [ item "Laptop Dell Inspiron 15" 2 2500000 19 5,
        item "Mouse Inalámbrico Logitech" 3 80000 19 10,
        item "Teclado Mecánico RGB" 2 350000 19 0 ])) ]

/-- The object literal `facturaData` of step 8 (customer 99999 does not
exist). -/
def facturaDataSinCliente : List (String × JsVal) :=
  [ ("clienteId", jnum 99999),
    ("items", some (.arr [ item "Producto Test" 1 100000 19 0 ])) ]

/-! ## The eight requests -/

def reqCrearCliente (BASE_URL : String) : Request :=
  ⟨.POST, [.lit BASE_URL, .lit "/clientes"], some clienteData⟩

def reqObtenerCliente (BASE_URL : String) (clienteId : JsVal) : Request :=
  ⟨.GET, [.lit BASE_URL, .lit "/clientes/", .tpl clienteId], none⟩

def reqListarClientes (BASE_URL : String) : Request :=
  ⟨.GET, [.lit BASE_URL, .lit "/clientes"], none⟩

def reqCrearFactura (BASE_URL : String) (clienteId : JsVal) : Request :=
  ⟨.POST, [.lit BASE_URL, .lit "/facturas"], some (facturaData clienteId)⟩

def reqObtenerFactura (BASE_URL : String) (facturaId : JsVal) : Request :=
  ⟨.GET, [.lit BASE_URL, .lit "/facturas/", .tpl facturaId], none⟩

def reqListarFacturas (BASE_URL : String) (clienteId : JsVal) : Request :=
  ⟨.GET, [.lit BASE_URL, .lit "/facturas?clienteId=", .tpl clienteId], none⟩

def reqActualizarCliente (BASE_URL : String) (clienteId : JsVal) : Request :=
  ⟨.PUT, [.lit BASE_URL, .lit "/clientes/", .tpl clienteId], some clienteActualizado⟩

def reqFacturaSinCliente (BASE_URL : String) : Request :=
  ⟨.POST, [.lit BASE_URL, .lit "/facturas"], some facturaDataSinCliente⟩

/-! ## Step functions -/

def probarCreacionCliente (BASE_URL : String) (srv : Server) : Js JsVal := do
  mostrarTitulo [.lit "PRUEBA 1: Crear Cliente"]
  try
    mostrarInfo [.lit "Enviando request POST /clientes..."]
    let response ← axios srv (reqCrearCliente BASE_URL)
    mostrarExito [.lit "Cliente creado exitosamente"] (some response.data)
    getField "id" response.data
  catch error =>
    mostrarError [.lit "Error al crear cliente"] error
    throw error

def probarObtenerCliente (BASE_URL : String) (srv : Server) (clienteId : JsVal) :
    Js Json := do
  mostrarTitulo [.lit "PRUEBA 2: Obtener Cliente (ID: ", ← template clienteId, .lit ")"]
  try
    mostrarInfo [.lit "Enviando request GET /clientes/", ← template clienteId, .lit "..."]
    let response ← axios srv (reqObtenerCliente BASE_URL clienteId)
    mostrarExito [.lit "Cliente obtenido exitosamente"] (some response.data)
    return response.data
  catch error =>
    mostrarError [.lit "Error al obtener cliente"] error
    throw error

def probarListarClientes (BASE_URL : String) (srv : Server) : Js Json := do
  mostrarTitulo [.lit "PRUEBA 3: Listar Todos los Clientes"]
  try
    mostrarInfo [.lit "Enviando request GET /clientes..."]
    let response ← axios srv (reqListarClientes BASE_URL)
    mostrarExito
      [.lit "Se encontraron ", ← template (← getLength response.data), .lit " clientes"]
      (some response.data)
    return response.data
  catch error =>
    mostrarError [.lit "Error al listar clientes"] error
    throw error

def probarCreacionFactura (BASE_URL : String) (srv : Server) (clienteId : JsVal) :
    Js JsVal := do
  mostrarTitulo [.lit "PRUEBA 4: Crear Factura para Cliente ", ← template clienteId]
  try
    mostrarInfo [.lit "Enviando request POST /facturas..."]
    let response ← axios srv (reqCrearFactura BASE_URL clienteId)
    mostrarExito [.lit "Factura creada exitosamente"] (some response.data)
    consoleLog [.lit "📊 Resumen de la Factura:"]
    consoleLog [.lit "   Número: ", ← template (← getField "numeroFactura" response.data)]
    consoleLog [.lit "   Subtotal: $", ← toLocaleString (← getField "subtotal" response.data)]
    consoleLog [.lit "   Impuestos: $", ← toLocaleString (← getField "impuestos" response.data)]
    consoleLog [.lit "   Descuentos: $", ← toLocaleString (← getField "descuentos" response.data)]
    consoleLog [.lit "   TOTAL: $", ← toLocaleString (← getField "total" response.data)]
    consoleLog [.lit ""]
    getField "id" response.data
  catch error =>
    mostrarError [.lit "Error al crear factura"] error
    throw error

def probarObtenerFactura (BASE_URL : String) (srv : Server) (facturaId : JsVal) :
    Js Json := do
  mostrarTitulo [.lit "PRUEBA 5: Obtener Factura (ID: ", ← template facturaId, .lit ")"]
  try
    mostrarInfo [.lit "Enviando request GET /facturas/", ← template facturaId, .lit "..."]
    let response ← axios srv (reqObtenerFactura BASE_URL facturaId)
    mostrarExito [.lit "Factura obtenida exitosamente"] (some response.data)
    return response.data
  catch error =>
    mostrarError [.lit "Error al obtener factura"] error
    throw error

def probarListarFacturasPorCliente (BASE_URL : String) (srv : Server)
    (clienteId : JsVal) : Js Json := do
  mostrarTitulo [.lit "PRUEBA 6: Listar Facturas del Cliente ", ← template clienteId]
  try
    mostrarInfo
      [.lit "Enviando request GET /facturas?clienteId=", ← template clienteId, .lit "..."]
    let response ← axios srv (reqListarFacturas BASE_URL clienteId)
    mostrarExito
      [.lit "Se encontraron ", ← template (← getLength response.data),
       .lit " facturas para el cliente"]
      (some response.data)
    return response.data
  catch error =>
    mostrarError [.lit "Error al listar facturas del cliente"] error
    throw error

def probarActualizarCliente (BASE_URL : String) (srv : Server) (clienteId : JsVal) :
    Js Json := do
  mostrarTitulo [.lit "PRUEBA 7: Actualizar Cliente (ID: ", ← template clienteId, .lit ")"]
  try
    mostrarInfo [.lit "Enviando request PUT /clientes/", ← template clienteId, .lit "..."]
    let response ← axios srv (reqActualizarCliente BASE_URL clienteId)
    mostrarExito [.lit "Cliente actualizado exitosamente"] (some response.data)
    return response.data
  catch error =>
    mostrarError [.lit "Error al actualizar cliente"] error
    throw error

/-- The text of the failure record of step 8. -/
def msgSeEsperabaFallo : List Txt :=
  [.lit "ERROR: Se esperaba que fallara pero tuvo éxito"]

/-- The text of the success record of step 8. -/
def msgValidacionCorrecta : List Txt :=
  [.lit "Validación correcta: La factura no se puede crear sin un cliente válido"]

def probarCreacionFacturaSinCliente (BASE_URL : String) (srv : Server) : Js Unit := do
  mostrarTitulo [.lit "PRUEBA 8: Intentar Crear Factura sin Cliente (Debe Fallar)"]
  try
    mostrarInfo [.lit "Enviando request POST /facturas (con cliente inexistente)..."]
    let _response ← axios srv (reqFacturaSinCliente BASE_URL)
    mostrarError msgSeEsperabaFallo ⟨none, none⟩
  catch error =>
    mostrarExito msgValidacionCorrecta (error.response.map (·.data))

/-! ## Orchestrator -/

/-- The try block of `ejecutarPruebas`. -/
def flujoPrincipal (BASE_URL : String) (srv : Server) : Js Unit := do
  let clienteId ← probarCreacionCliente BASE_URL srv
  let _ ← probarObtenerCliente BASE_URL srv clienteId
  let _ ← probarListarClientes BASE_URL srv
  let facturaId ← probarCreacionFactura BASE_URL srv clienteId
  let _ ← probarObtenerFactura BASE_URL srv facturaId
  let _ ← probarListarFacturasPorCliente BASE_URL srv clienteId
  let _ ← probarActualizarCliente BASE_URL srv clienteId
  probarCreacionFacturaSinCliente BASE_URL srv
  mostrarTitulo [.lit "RESUMEN DE PRUEBAS"]
  consoleLog [.lit "✓ Todas las pruebas completadas exitosamente"]
  consoleLog [.lit "✓ Cliente creado con ID: ", ← template clienteId]
  consoleLog [.lit "✓ Factura creada con ID: ", ← template facturaId]
  consoleLog [.lit "✓ Validaciones de negocio funcionando correctamente"]

/-- The catch block of `ejecutarPruebas`, up to the call `process.exit(1)`;
the result is the argument of that call. -/
def errorEnLasPruebas (BASE_URL : String) : Js Nat := do
  mostrarTitulo [.lit "ERROR EN LAS PRUEBAS"]
  consoleLog [.lit "✗ Ocurrió un error durante las pruebas"]
  consoleLog [.lit "Asegúrese de que el backend esté ejecutándose en:", .lit BASE_URL]
  return 1

/-- The banner printed before the first step. -/
def encabezado (BASE_URL : String) : Js Unit := do
  consoleLog [.lit "\n", .rep "█" 80]
  consoleLog [.lit "  CLIENTE DE PRUEBA - SISTEMA DE FACTURACIÓN"]
  consoleLog [.lit "  Castor - Prueba Técnica Backend Java"]
  consoleLog [.rep "█" 80]
  consoleLog [.lit "\n🔗 API Base URL: ", .lit BASE_URL]
  consoleLog [.lit "⏰ Fecha: ", .now]

/-- The lines printed after the try statement. -/
def finDeLasPruebas : Js Unit := do
  consoleLog [.lit "\n", .rep "█" 80]
  consoleLog [.lit "  FIN DE LAS PRUEBAS"]
  consoleLog [.rep "█" 80, .lit "\n"]

/-- What is observable of a finished process. -/
structure Run where
  /-- HTTP calls issued, oldest first. -/
  calls : List Request
  /-- Console lines printed, oldest first. -/
  out : List Line
  /-- The argument of `process.exit`, when it was called. -/
  exit : Option Nat
  /-- An exception that left `ejecutarPruebas`, if any. -/
  uncaught : Option JsError

/-- The exit code of the process: the argument of `process.exit`; without
that call, 1 for an unhandled rejection and 0 otherwise. -/
def Run.exitCode (r : Run) : Nat :=
  match r.exit, r.uncaught with
  | some c, _ => c
  | none, some _ => 1
  | none, none => 0

/-- The body of `ejecutarPruebas`; `some c` is returned where the source
calls `process.exit(c)`, which ends the process at once. -/
def cuerpo (BASE_URL : String) (srv : Server) : Js (Option Nat) := do
  encabezado BASE_URL
  let salida ←
    try
      flujoPrincipal BASE_URL srv
      pure none
    catch _error =>
      pure (some (← errorEnLasPruebas BASE_URL))
  match salida with
  | some c => return some c
  | none =>
    finDeLasPruebas
    return none

/-- The statement `ejecutarPruebas();` in a fresh process. -/
def ejecutarPruebas (BASE_URL : String) (srv : Server) : Run :=
  match cuerpo BASE_URL srv ⟨[], []⟩ with
  | (.ok c, w) => ⟨w.calls, w.out, c, none⟩
  | (.error e, w) => ⟨w.calls, w.out, none, some e⟩

/-- The constant `BASE_URL`: `process.env.API_URL || 'http://localhost:8080'`
(an unset or empty variable is falsy). -/
def resolveBaseUrl (apiUrl : Option String) : String :=
  match apiUrl with
  | some u => if u = "" then "http://localhost:8080" else u
  | none => "http://localhost:8080"

end Castor

namespace Castor

/-! ## Vocabulary of the statements -/

/-- The three lines of a section header. -/
def lineasTitulo (titulo : List Txt) : List Line :=
  [[.lit "\n", .rep "=" 80], .lit "  " :: titulo, [.rep "=" 80, .lit "\n"]]

/-- The lines of a success record: the message, the payload when it is
truthy, an empty line. -/
def lineasExito (mensaje : List Txt) (data : JsVal) : List Line :=
  [.lit "✓" :: .lit " " :: mensaje] ++
  (match data with
   | some v => if truthy (some v) then [[.json v]] else []
   | none => []) ++
  [[.lit ""]]

/-- The detail of a failure record: status and body of the response, or
else the message. -/
def detalleError (error : JsError) : List Line :=
  match error.response, error.message with
  | some r, _ => [[.lit "Status:", .status r.status], [.lit "Error:", .json r.data]]
  | none, some m => [[.lit "Error:", .lit m]]
  | none, none => []

/-- The lines of a failure record: the message, the detail, an empty line. -/
def lineasError (mensaje : List Txt) (error : JsError) : List Line :=
  [.lit "✗" :: .lit " " :: mensaje] ++ detalleError error ++ [[.lit ""]]

/-- The error with which axios rejects a reply, if it does. -/
def rechazo : Reply → Option JsError
  | .response r =>
    if validateStatus r.status then none
    else some ⟨some r, some ("Request failed with status code " ++ toString r.status)⟩
  | .noResponse m => some ⟨none, some m⟩

/-- The reply is a response with a 2xx status. -/
def esExito : Reply → Bool
  | .response r => validateStatus r.status
  | .noResponse _ => false

def esNull : Json → Bool
  | .null => true
  | _ => false

/-- The value can be substituted in a template literal. -/
def stringOk : JsVal → Bool
  | some v => !v.toStringThrows
  | none => true

/-- The call `v.toLocaleString('es-CO')` returns. -/
def localeOk : JsVal → Bool
  | some v => !v.toLocaleStringThrows
  | none => false

/-- Whether step `k` reads the body of its 2xx response without an
exception. -/
def acepta : Nat → Json → Bool
  | 1, d => !esNull d
  | 3, d => !esNull d && stringOk (lengthOf d)
  | 4, d => !esNull d && stringOk (field "numeroFactura" d) &&
      localeOk (field "subtotal" d) && localeOk (field "impuestos" d) &&
      localeOk (field "descuentos" d) && localeOk (field "total" d)
  | 6, d => !esNull d && stringOk (lengthOf d)
  | _, _ => true

/-- The message of the failure record of step `k`. -/
def mensajeError : Nat → List Txt
  | 1 => [.lit "Error al crear cliente"]
  | 2 => [.lit "Error al obtener cliente"]
  | 3 => [.lit "Error al listar clientes"]
  | 4 => [.lit "Error al crear factura"]
  | 5 => [.lit "Error al obtener factura"]
  | 6 => [.lit "Error al listar facturas del cliente"]
  | 7 => [.lit "Error al actualizar cliente"]
  | _ => []

/-- How the error that ends a step relates to the reply to its call: the
rejection of axios, or for a 2xx reply that the step does not read without
an exception a `TypeError` (no response, a message). -/
def ErrorDe (acc : Json → Bool) (rep : Reply) (e : JsError) : Prop :=
  match rep with
  | .response r =>
    if validateStatus r.status then
      acc r.data = false ∧ e.response = none ∧ e.message.isSome = true
    else e = ⟨some r, some ("Request failed with status code " ++ toString r.status)⟩
  | .noResponse m => e = ⟨none, some m⟩

/-- The outcomes of one of the steps 1 to 7 started in world `w`. -/
inductive Paso {α : Type} (srv : Server) (arg : JsVal) (mensaje : List Txt)
    (req : Request) (acc : Json → Bool) (valor : Json → α) (w : World) :
    Except JsError α × World → Prop where
  /-- The title threw: nothing was printed, no call was issued. -/
  | titulo (e : JsError) (harg : stringOk arg = false) :
      Paso srv arg mensaje req acc valor w (.error e, w)
  /-- The try block threw: the call was issued and the failure record is
  the last thing printed. -/
  | fallo (e : JsError) (pre : List Line)
      (hde : ErrorDe acc (srv w.calls req) e) :
      Paso srv arg mensaje req acc valor w
        (.error e, ⟨w.calls ++ [req], pre ++ lineasError mensaje e⟩)
  /-- The step returned: the call was issued and answered with 2xx. -/
  | exito (r : Response) (out : List Line) (harg : stringOk arg = true)
      (hrep : srv w.calls req = .response r) (hok : validateStatus r.status = true)
      (hacc : acc r.data = true) :
      Paso srv arg mensaje req acc valor w (.ok (valor r.data), ⟨w.calls ++ [req], out⟩)

/-- The identifier carried by a reply. -/
def idDe : Reply → JsVal
  | .response r => field "id" r.data
  | .noResponse _ => none

/-- The eight calls of a complete run, for given identifiers. -/
def plan (B : String) (cid fid : JsVal) : List Request :=
  [ reqCrearCliente B, reqObtenerCliente B cid, reqListarClientes B,
    reqCrearFactura B cid, reqObtenerFactura B fid, reqListarFacturas B cid,
    reqActualizarCliente B cid, reqFacturaSinCliente B ]

/-- The `id` field of the server's answer to create-customer. -/
def clienteIdDe (B : String) (srv : Server) : JsVal :=
  idDe (srv [] (reqCrearCliente B))

/-- The `id` field of the server's answer to create-invoice, asked after
the first three calls. -/
def facturaIdDe (B : String) (srv : Server) : JsVal :=
  idDe (srv [reqCrearCliente B, reqObtenerCliente B (clienteIdDe B srv), reqListarClientes B]
    (reqCrearFactura B (clienteIdDe B srv)))

/-- The eight calls of a complete run against `srv`. -/
def planDe (B : String) (srv : Server) : List Request :=
  plan B (clienteIdDe B srv) (facturaIdDe B srv)

/-- Method and URL of a call. -/
def rutaDe (q : Request) : Method × List Txt := (q.method, q.url)

/-- The fixed sequence of the specification, as methods and URLs:
POST /clientes, GET /clientes/id, GET /clientes, POST /facturas,
GET /facturas/id, GET /facturas?clienteId=id, PUT /clientes/id,
POST /facturas. -/
def secuenciaFija (B : String) (cid fid : JsVal) : List (Method × List Txt) :=
  [ (.POST, [.lit B, .lit "/clientes"]),
    (.GET, [.lit B, .lit "/clientes/", .tpl cid]),
    (.GET, [.lit B, .lit "/clientes"]),
    (.POST, [.lit B, .lit "/facturas"]),
    (.GET, [.lit B, .lit "/facturas/", .tpl fid]),
    (.GET, [.lit B, .lit "/facturas?clienteId=", .tpl cid]),
    (.PUT, [.lit B, .lit "/clientes/", .tpl cid]),
    (.POST, [.lit B, .lit "/facturas"]) ]

/-- The reply received by call number `i` (from 0) of a run that issued
`calls`: the server saw the calls before it, then this one. -/
def replyAt (srv : Server) (calls : List Request) (i : Nat) : Option Reply :=
  (calls[i]?).map (srv (calls.take i))

/-- The first `k` calls of `P` were answered with 2xx and read without an
exception. -/
def Previos (srv : Server) (P : List Request) (k : Nat) : Prop :=
  ∀ i, i < k → ∃ r, replyAt srv P i = some (.response r) ∧
    validateStatus r.status = true ∧ acepta (i + 1) r.data = true

/-- The lines of `encabezado`. -/
def lineasEncabezado (B : String) : List Line :=
  [ [.lit "\n", .rep "█" 80],
    [.lit "  CLIENTE DE PRUEBA - SISTEMA DE FACTURACIÓN"],
    [.lit "  Castor - Prueba Técnica Backend Java"],
    [.rep "█" 80],
    [.lit "\n🔗 API Base URL: ", .lit B],
    [.lit "⏰ Fecha: ", .now] ]

/-- The section printed by the catch block of `ejecutarPruebas`. -/
def seccionError (B : String) : List Line :=
  lineasTitulo [.lit "ERROR EN LAS PRUEBAS"] ++
  [ [.lit "✗ Ocurrió un error durante las pruebas"],
    [.lit "Asegúrese de que el backend esté ejecutándose en:", .lit B] ]

/-- The final summary. -/
def resumen (cid fid : JsVal) : List Line :=
  lineasTitulo [.lit "RESUMEN DE PRUEBAS"] ++
  [ [.lit "✓ Todas las pruebas completadas exitosamente"],
    [.lit "✓ Cliente creado con ID: ", .tpl cid],
    [.lit "✓ Factura creada con ID: ", .tpl fid],
    [.lit "✓ Validaciones de negocio funcionando correctamente"] ]

/-- The lines of `finDeLasPruebas`. -/
def lineasFin : List Line :=
  [ [.lit "\n", .rep "█" 80], [.lit "  FIN DE LAS PRUEBAS"], [.rep "█" 80, .lit "\n"] ]

/-- The first line of the failure record of step 8. -/
def lineaSeEsperabaFallo : Line := .lit "✗" :: .lit " " :: msgSeEsperabaFallo

/-- What step 8 prints before its call: title and notice. -/
def cabeceraPaso8 : List Line :=
  lineasTitulo [.lit "PRUEBA 8: Intentar Crear Factura sin Cliente (Debe Fallar)"] ++
  [[.lit "ℹ", .lit " ", .lit "Enviando request POST /facturas (con cliente inexistente)..."]]

/-- What step 8 prints, by the reply to its call. -/
def salidaPaso8 (rep : Reply) : List Line :=
  cabeceraPaso8 ++
  (match rep with
   | .response r =>
     if validateStatus r.status then
       [lineaSeEsperabaFallo] ++ lineasExito msgValidacionCorrecta none
     else lineasExito msgValidacionCorrecta (some r.data)
   | .noResponse _ => lineasExito msgValidacionCorrecta none)

/-- The outcomes of the try block of `ejecutarPruebas` started with no call
issued, for the identifiers `cid` and `fid` of the server. -/
inductive Forma (B : String) (srv : Server) (cid fid : JsVal) :
    Except JsError Unit × World → Prop where
  /-- All eight steps returned and the summary was printed. -/
  | completo (pre : List Line) (hprev : Previos srv (plan B cid fid) 7)
      (hcid : stringOk cid = true) (hfid : stringOk fid = true) :
      Forma B srv cid fid
        (.ok (), ⟨plan B cid fid,
          pre ++ salidaPaso8 (srv ((plan B cid fid).take 7) (reqFacturaSinCliente B)) ++
            resumen cid fid⟩)
  /-- Step `k` issued its call and threw inside its try block. -/
  | aborto (k : Nat) (hk1 : 1 ≤ k) (hk7 : k ≤ 7) (e : JsError) (pre : List Line)
      (rep : Reply) (hprev : Previos srv (plan B cid fid) (k - 1))
      (hrep : replyAt srv (plan B cid fid) (k - 1) = some rep)
      (hde : ErrorDe (acepta k) rep e) :
      Forma B srv cid fid
        (.error e, ⟨(plan B cid fid).take k, pre ++ lineasError (mensajeError k) e⟩)
  /-- After `k` steps the title of the next step threw: step 1 returned a
  customer identifier, or step 4 an invoice identifier, that cannot be
  substituted in a template literal. -/
  | titulo (k : Nat) (hk1 : 1 ≤ k) (hk6 : k ≤ 6) (e : JsError) (out : List Line)
      (hprev : Previos srv (plan B cid fid) k)
      (hno : (k = 1 ∧ stringOk cid = false) ∨ (k = 4 ∧ stringOk fid = false)) :
      Forma B srv cid fid (.error e, ⟨(plan B cid fid).take k, out⟩)

end Castor

namespace Castor

/-! ## Concrete servers -/

/-- A server that answers by the position of the call: call number `i`
(from 0) gets `respuestas[i]`, a later call gets `resto`. -/
def servidor (respuestas : List Reply) (resto : Reply) : Server :=
  fun previas _ => respuestas.getD previas.length resto

def cliente1 : Json :=
  .obj [("id", .num 1), ("nombre", .str "Empresa de Prueba S.A.S."), ("activo", .bool true)]

def factura7 : Json :=
  .obj [("id", .num 7), ("numeroFactura", .str "FAC-0007"), ("clienteId", .num 1),
        ("subtotal", .num 5940000), ("impuestos", .num 1067040),
        ("descuentos", .num 274000), ("total", .num 6733040)]

def noEncontrado : Reply :=
  .response ⟨404, .obj [("error", .str "Cliente no encontrado")]⟩

/-- Replies of a correct API to the first seven calls. -/
def respuestasCorrectas : List Reply :=
  [ .response ⟨201, cliente1⟩, .response ⟨200, cliente1⟩, .response ⟨200, .arr [cliente1]⟩,
    .response ⟨201, factura7⟩, .response ⟨200, factura7⟩, .response ⟨200, .arr [factura7]⟩,
    .response ⟨200, cliente1⟩ ]

/-- Scenario A: a correct API, which rejects the invoice of step 8. -/
def srvCorrecto : Server := servidor respuestasCorrectas noEncontrado

/-- Scenario B: nothing listens at the base URL. -/
def srvCaido : Server := fun _ _ => .noResponse "connect ECONNREFUSED 127.0.0.1:8080"

/-- Scenario C: the API accepts the invoice of step 8. -/
def srvAceptaTodo : Server := servidor respuestasCorrectas (.response ⟨201, factura7⟩)

/-- A correct API that becomes unreachable before step 8. -/
def srvCaidoAlFinal : Server :=
  servidor respuestasCorrectas (.noResponse "connect ECONNREFUSED 127.0.0.1:8080")

/-- Scenario D: get-customer answers 404. -/
def srvSinCliente : Server := servidor [.response ⟨201, cliente1⟩] noEncontrado

/-- An API whose create-customer response has no `id`. -/
def srvClienteSinId : Server :=
  servidor [.response ⟨201, .obj [("nombre", .str "Empresa de Prueba S.A.S.")]⟩] noEncontrado

/-- A create-invoice body with the four amounts and neither `id` nor
`numeroFactura`. -/
def facturaSinId : Json :=
  .obj [("subtotal", .num 5940000), ("impuestos", .num 1067040),
        ("descuentos", .num 274000), ("total", .num 6733040)]

/-- An API whose create-invoice response is `facturaSinId`. -/
def srvFacturaSinId : Server :=
  servidor
    [ .response ⟨201, cliente1⟩, .response ⟨200, cliente1⟩, .response ⟨200, .arr [cliente1]⟩,
      .response ⟨201, facturaSinId⟩ ]
    noEncontrado

/-- A customer identifier that is an object with an own `toString`. -/
def idRaro : Json := .obj [("toString", .num 1)]

/-- An API whose create-customer response carries `idRaro` as `id`. -/
def srvIdRaro : Server := servidor [.response ⟨201, .obj [("id", idRaro)]⟩] noEncontrado

/-- An API whose create-invoice response carries `idRaro` as `id`. -/
def srvFacturaIdRara : Server :=
  servidor
    [ .response ⟨201, cliente1⟩, .response ⟨200, cliente1⟩, .response ⟨200, .arr [cliente1]⟩,
      .response ⟨201, .obj [("id", idRaro), ("numeroFactura", .str "FAC-0007"),
        ("subtotal", .num 5940000), ("impuestos", .num 1067040),
        ("descuentos", .num 274000), ("total", .num 6733040)]⟩ ]
    noEncontrado

def local8080 : String := "http://localhost:8080"

end Castor

namespace Castor

/-! ## Running the monad -/

@[simp] theorem pure_run {α : Type} (a : α) (w : World) :
    (pure a : Js α) w = (.ok a, w) := rfl

@[simp] theorem bind_run {α β : Type} (m : Js α) (f : α → Js β) (w : World) :
    (m >>= f) w = match m w with
      | (.ok a, w1) => f a w1
      | (.error e, w1) => (.error e, w1) := rfl

@[simp] theorem throw_run {α : Type} (e : JsError) (w : World) :
    (throw e : Js α) w = (.error e, w) := rfl

@[simp] theorem tryCatch_run {α : Type} (m : Js α) (h : JsError → Js α) (w : World) :
    (tryCatch m h) w = match m w with
      | (.ok a, w1) => (.ok a, w1)
      | (.error e, w1) => h e w1 := rfl

@[simp] theorem consoleLog_run (l : Line) (w : World) :
    consoleLog l w = (.ok (), ⟨w.calls, w.out ++ [l]⟩) := rfl

theorem mostrarTitulo_run (t : List Txt) (w : World) :
    mostrarTitulo t w = (.ok (), ⟨w.calls, w.out ++ lineasTitulo t⟩) := by
  simp [mostrarTitulo, lineasTitulo]

theorem mostrarInfo_run (m : List Txt) (w : World) :
    mostrarInfo m w = (.ok (), ⟨w.calls, w.out ++ [.lit "ℹ" :: .lit " " :: m]⟩) := rfl

theorem mostrarExito_run (m : List Txt) (d : JsVal) (w : World) :
    mostrarExito m d w = (.ok (), ⟨w.calls, w.out ++ lineasExito m d⟩) := by
  cases d with
  | none => simp [mostrarExito, lineasExito, truthy]
  | some v =>
    by_cases h : truthy (some v) = true <;>
      simp [mostrarExito, lineasExito, h, jsonStringifyGray]

theorem mostrarError_run (m : List Txt) (e : JsError) (w : World)
    (h : e.response.isSome = true ∨ e.message.isSome = true) :
    mostrarError m e w = (.ok (), ⟨w.calls, w.out ++ lineasError m e⟩) := by
  obtain ⟨r, msg⟩ := e
  cases r with
  | some r => simp [mostrarError, lineasError, detalleError, jsonStringifyGray]
  | none =>
    cases msg with
    | some s => simp [mostrarError, lineasError, detalleError, messageGray]
    | none => simp at h

theorem axios_run (srv : Server) (req : Request) (w : World) :
    axios srv req w =
      (match srv w.calls req with
       | .response r =>
         if validateStatus r.status then .ok r
         else .error ⟨some r, some ("Request failed with status code " ++ toString r.status)⟩
       | .noResponse m => .error ⟨none, some m⟩,
       ⟨w.calls ++ [req], w.out⟩) := by
  unfold axios
  rcases srv w.calls req with r | m
  · by_cases h : validateStatus r.status = true <;> simp [h]
  · simp

theorem getField_null (p : String) (w : World) :
    getField p .null w =
      (.error (typeError ("Cannot read properties of null, reading " ++ p)), w) := rfl

theorem getField_run (p : String) (v : Json) (w : World) (h : esNull v = false) :
    getField p v w = (.ok (field p v), w) := by
  cases v <;> first | rfl | simp [esNull] at h

theorem getLength_null (w : World) :
    getLength .null w =
      (.error (typeError "Cannot read properties of null, reading length"), w) := rfl

theorem getLength_run (v : Json) (w : World) (h : esNull v = false) :
    getLength v w = (.ok (lengthOf v), w) := by
  cases v <;> first | rfl | simp [esNull] at h

theorem esNull_eq {v : Json} (h : esNull v = true) : v = .null := by
  cases v <;> first | rfl | simp [esNull] at h

theorem template_ok (v : JsVal) (w : World) (h : stringOk v = true) :
    template v w = (.ok (.tpl v), w) := by
  cases v with
  | none => rfl
  | some j =>
    have hj : j.toStringThrows = false := by simpa [stringOk] using h
    simp [template, hj]

theorem template_err (v : JsVal) (w : World) (h : stringOk v = false) :
    template v w = (.error (typeError "Cannot convert object to primitive value"), w) := by
  cases v with
  | none => simp [stringOk] at h
  | some j =>
    have hj : j.toStringThrows = true := by simpa [stringOk] using h
    simp [template, hj]

theorem toLocaleString_ok (v : JsVal) (h : localeOk v = true) :
    ∃ t, ∀ w, toLocaleString v w = (.ok t, w) := by
  cases v with
  | none => simp [localeOk] at h
  | some j =>
    have hj : j.toLocaleStringThrows = false := by simpa [localeOk] using h
    exact ⟨.locale j, fun w => by simp [toLocaleString, hj]⟩

theorem toLocaleString_err (v : JsVal) (h : localeOk v = false) :
    ∃ m, ∀ w, toLocaleString v w = (.error (typeError m), w) := by
  cases v with
  | none =>
    exact ⟨"Cannot read properties of undefined, reading toLocaleString", fun w => rfl⟩
  | some j =>
    have hj : j.toLocaleStringThrows = true := by simpa [localeOk] using h
    exact ⟨"toLocaleString is not a function", fun w => by simp [toLocaleString, hj]⟩

/-! ## The steps, one by one -/

theorem errorDe_noResponse {acc : Json → Bool} {rep : Reply} {m : String}
    (h : rep = .noResponse m) : ErrorDe acc rep ⟨none, some m⟩ := by
  subst h; simp [ErrorDe]

theorem errorDe_status {acc : Json → Bool} {rep : Reply} {r : Response}
    (h : rep = .response r) (hok : ¬ validateStatus r.status = true) :
    ErrorDe acc rep
      ⟨some r, some ("Request failed with status code " ++ toString r.status)⟩ := by
  subst h; simp [ErrorDe, hok]

theorem errorDe_typeError {acc : Json → Bool} {rep : Reply} {r : Response}
    (h : rep = .response r) (hok : validateStatus r.status = true)
    (hacc : acc r.data = false) (m : String) : ErrorDe acc rep (typeError m) := by
  subst h; simp [ErrorDe, hok, typeError, hacc]

theorem paso1 (B : String) (srv : Server) (w : World) :
    Paso srv none (mensajeError 1) (reqCrearCliente B) (acepta 1) (field "id") w
      (probarCreacionCliente B srv w) := by
  unfold probarCreacionCliente
  simp only [bind_run, tryCatch_run, mostrarTitulo_run, mostrarInfo_run, axios_run]
  rcases hrep : srv w.calls (reqCrearCliente B) with r | m
  · by_cases hok : validateStatus r.status = true
    · simp only [hok, if_true, mostrarExito_run]
      rcases hd : esNull r.data with _ | _
      · simp only [getField_run _ _ _ hd]
        exact Paso.exito r _ rfl hrep hok (by simp [acepta, hd])
      · simp only [esNull_eq hd, getField_null, throw_run,
          mostrarError_run _ (typeError _) _ (Or.inr rfl)]
        exact Paso.fallo _ _ (errorDe_typeError hrep hok (by simp [acepta, hd]) _)
    · simp only [hok, Bool.false_eq_true, if_false,
        mostrarError_run _ ⟨some r, some _⟩ _ (Or.inl rfl), throw_run]
      exact Paso.fallo _ _ (errorDe_status hrep hok)
  · simp only [mostrarError_run _ ⟨none, some m⟩ _ (Or.inr rfl), throw_run]
    exact Paso.fallo _ _ (errorDe_noResponse hrep)

theorem paso2 (B : String) (srv : Server) (cid : JsVal) (w : World) :
    Paso srv cid (mensajeError 2) (reqObtenerCliente B cid) (acepta 2) id w
      (probarObtenerCliente B srv cid w) := by
  unfold probarObtenerCliente
  rcases harg : stringOk cid with _ | _
  · simp only [bind_run, template_err _ _ harg]
    exact Paso.titulo _ harg
  simp only [bind_run, tryCatch_run, template_ok _ _ harg, mostrarTitulo_run,
    mostrarInfo_run, axios_run]
  rcases hrep : srv w.calls (reqObtenerCliente B cid) with r | m
  · by_cases hok : validateStatus r.status = true
    · simp only [hok, if_true, mostrarExito_run, pure_run]
      exact Paso.exito r _ harg hrep hok rfl
    · simp only [hok, Bool.false_eq_true, if_false,
        mostrarError_run _ ⟨some r, some _⟩ _ (Or.inl rfl), throw_run]
      exact Paso.fallo _ _ (errorDe_status hrep hok)
  · simp only [mostrarError_run _ ⟨none, some m⟩ _ (Or.inr rfl), throw_run]
    exact Paso.fallo _ _ (errorDe_noResponse hrep)

theorem paso3 (B : String) (srv : Server) (w : World) :
    Paso srv none (mensajeError 3) (reqListarClientes B) (acepta 3) id w
      (probarListarClientes B srv w) := by
  unfold probarListarClientes
  simp only [bind_run, tryCatch_run, mostrarTitulo_run, mostrarInfo_run, axios_run]
  rcases hrep : srv w.calls (reqListarClientes B) with r | m
  · by_cases hok : validateStatus r.status = true
    · simp only [hok, if_true]
      rcases hd : esNull r.data with _ | _
      · simp only [getLength_run _ _ hd]
        rcases hl : stringOk (lengthOf r.data) with _ | _
        · simp only [template_err _ _ hl, mostrarError_run _ (typeError _) _ (Or.inr rfl),
            throw_run]
          exact Paso.fallo _ _ (errorDe_typeError hrep hok (by simp [acepta, hd, hl]) _)
        · simp only [template_ok _ _ hl, mostrarExito_run, pure_run]
          exact Paso.exito r _ rfl hrep hok (by simp [acepta, hd, hl])
      · simp only [esNull_eq hd, getLength_null, throw_run,
          mostrarError_run _ (typeError _) _ (Or.inr rfl)]
        exact Paso.fallo _ _ (errorDe_typeError hrep hok (by simp [acepta, hd]) _)
    · simp only [hok, Bool.false_eq_true, if_false,
        mostrarError_run _ ⟨some r, some _⟩ _ (Or.inl rfl), throw_run]
      exact Paso.fallo _ _ (errorDe_status hrep hok)
  · simp only [mostrarError_run _ ⟨none, some m⟩ _ (Or.inr rfl), throw_run]
    exact Paso.fallo _ _ (errorDe_noResponse hrep)

theorem paso5 (B : String) (srv : Server) (cid : JsVal) (w : World) :
    Paso srv cid (mensajeError 5) (reqObtenerFactura B cid) (acepta 5) id w
      (probarObtenerFactura B srv cid w) := by
  unfold probarObtenerFactura
  rcases harg : stringOk cid with _ | _
  · simp only [bind_run, template_err _ _ harg]
    exact Paso.titulo _ harg
  simp only [bind_run, tryCatch_run, template_ok _ _ harg, mostrarTitulo_run,
    mostrarInfo_run, axios_run]
  rcases hrep : srv w.calls (reqObtenerFactura B cid) with r | m
  · by_cases hok : validateStatus r.status = true
    · simp only [hok, if_true, mostrarExito_run, pure_run]
      exact Paso.exito r _ harg hrep hok rfl
    · simp only [hok, Bool.false_eq_true, if_false,
        mostrarError_run _ ⟨some r, some _⟩ _ (Or.inl rfl), throw_run]
      exact Paso.fallo _ _ (errorDe_status hrep hok)
  · simp only [mostrarError_run _ ⟨none, some m⟩ _ (Or.inr rfl), throw_run]
    exact Paso.fallo _ _ (errorDe_noResponse hrep)

theorem paso6 (B : String) (srv : Server) (cid : JsVal) (w : World) :
    Paso srv cid (mensajeError 6) (reqListarFacturas B cid) (acepta 6) id w
      (probarListarFacturasPorCliente B srv cid w) := by
  unfold probarListarFacturasPorCliente
  rcases harg : stringOk cid with _ | _
  · simp only [bind_run, template_err _ _ harg]
    exact Paso.titulo _ harg
  simp only [bind_run, tryCatch_run, template_ok _ _ harg, mostrarTitulo_run,
    mostrarInfo_run, axios_run]
  rcases hrep : srv w.calls (reqListarFacturas B cid) with r | m
  · by_cases hok : validateStatus r.status = true
    · simp only [hok, if_true]
      rcases hd : esNull r.data with _ | _
      · simp only [getLength_run _ _ hd]
        rcases hl : stringOk (lengthOf r.data) with _ | _
        · simp only [template_err _ _ hl, mostrarError_run _ (typeError _) _ (Or.inr rfl),
            throw_run]
          exact Paso.fallo _ _ (errorDe_typeError hrep hok (by simp [acepta, hd, hl]) _)
        · simp only [template_ok _ _ hl, mostrarExito_run, pure_run]
          exact Paso.exito r _ harg hrep hok (by simp [acepta, hd, hl])
      · simp only [esNull_eq hd, getLength_null, throw_run,
          mostrarError_run _ (typeError _) _ (Or.inr rfl)]
        exact Paso.fallo _ _ (errorDe_typeError hrep hok (by simp [acepta, hd]) _)
    · simp only [hok, Bool.false_eq_true, if_false,
        mostrarError_run _ ⟨some r, some _⟩ _ (Or.inl rfl), throw_run]
      exact Paso.fallo _ _ (errorDe_status hrep hok)
  · simp only [mostrarError_run _ ⟨none, some m⟩ _ (Or.inr rfl), throw_run]
    exact Paso.fallo _ _ (errorDe_noResponse hrep)

theorem paso7 (B : String) (srv : Server) (cid : JsVal) (w : World) :
    Paso srv cid (mensajeError 7) (reqActualizarCliente B cid) (acepta 7) id w
      (probarActualizarCliente B srv cid w) := by
  unfold probarActualizarCliente
  rcases harg : stringOk cid with _ | _
  · simp only [bind_run, template_err _ _ harg]
    exact Paso.titulo _ harg
  simp only [bind_run, tryCatch_run, template_ok _ _ harg, mostrarTitulo_run,
    mostrarInfo_run, axios_run]
  rcases hrep : srv w.calls (reqActualizarCliente B cid) with r | m
  · by_cases hok : validateStatus r.status = true
    · simp only [hok, if_true, mostrarExito_run, pure_run]
      exact Paso.exito r _ harg hrep hok rfl
    · simp only [hok, Bool.false_eq_true, if_false,
        mostrarError_run _ ⟨some r, some _⟩ _ (Or.inl rfl), throw_run]
      exact Paso.fallo _ _ (errorDe_status hrep hok)
  · simp only [mostrarError_run _ ⟨none, some m⟩ _ (Or.inr rfl), throw_run]
    exact Paso.fallo _ _ (errorDe_noResponse hrep)

theorem paso4 (B : String) (srv : Server) (cid : JsVal) (w : World) :
    Paso srv cid (mensajeError 4) (reqCrearFactura B cid) (acepta 4) (field "id") w
      (probarCreacionFactura B srv cid w) := by
  unfold probarCreacionFactura
  rcases harg : stringOk cid with _ | _
  · simp only [bind_run, template_err _ _ harg]
    exact Paso.titulo _ harg
  simp only [bind_run, tryCatch_run, template_ok _ _ harg, mostrarTitulo_run,
    mostrarInfo_run, axios_run]
  rcases hrep : srv w.calls (reqCrearFactura B cid) with r | m
  · by_cases hok : validateStatus r.status = true
    · simp only [hok, if_true, mostrarExito_run, consoleLog_run]
      rcases hd : esNull r.data with _ | _
      · simp only [getField_run _ _ _ hd]
        rcases h0 : stringOk (field "numeroFactura" r.data) with _ | _
        · simp only [template_err _ _ h0, mostrarError_run _ (typeError _) _ (Or.inr rfl),
            throw_run]
          exact Paso.fallo _ _ (errorDe_typeError hrep hok (by simp [acepta, hd, h0]) _)
        simp only [template_ok _ _ h0, consoleLog_run]
        rcases h1 : localeOk (field "subtotal" r.data) with _ | _
        · obtain ⟨m1, e1⟩ := toLocaleString_err _ h1
          simp only [e1, mostrarError_run _ (typeError _) _ (Or.inr rfl), throw_run]
          exact Paso.fallo _ _ (errorDe_typeError hrep hok (by simp [acepta, hd, h0, h1]) _)
        obtain ⟨t1, e1⟩ := toLocaleString_ok _ h1
        simp only [e1, consoleLog_run]
        rcases h2 : localeOk (field "impuestos" r.data) with _ | _
        · obtain ⟨m2, e2⟩ := toLocaleString_err _ h2
          simp only [e2, mostrarError_run _ (typeError _) _ (Or.inr rfl), throw_run]
          exact Paso.fallo _ _
            (errorDe_typeError hrep hok (by simp [acepta, hd, h0, h1, h2]) _)
        obtain ⟨t2, e2⟩ := toLocaleString_ok _ h2
        simp only [e2, consoleLog_run]
        rcases h3 : localeOk (field "descuentos" r.data) with _ | _
        · obtain ⟨m3, e3⟩ := toLocaleString_err _ h3
          simp only [e3, mostrarError_run _ (typeError _) _ (Or.inr rfl), throw_run]
          exact Paso.fallo _ _
            (errorDe_typeError hrep hok (by simp [acepta, hd, h0, h1, h2, h3]) _)
        obtain ⟨t3, e3⟩ := toLocaleString_ok _ h3
        simp only [e3, consoleLog_run]
        rcases h4 : localeOk (field "total" r.data) with _ | _
        · obtain ⟨m4, e4⟩ := toLocaleString_err _ h4
          simp only [e4, mostrarError_run _ (typeError _) _ (Or.inr rfl), throw_run]
          exact Paso.fallo _ _
            (errorDe_typeError hrep hok (by simp [acepta, hd, h0, h1, h2, h3, h4]) _)
        obtain ⟨t4, e4⟩ := toLocaleString_ok _ h4
        simp only [e4, consoleLog_run]
        exact Paso.exito r _ harg hrep hok (by simp [acepta, hd, h0, h1, h2, h3, h4])
      · simp only [esNull_eq hd, getField_null, throw_run,
          mostrarError_run _ (typeError _) _ (Or.inr rfl)]
        exact Paso.fallo _ _ (errorDe_typeError hrep hok (by simp [acepta, hd]) _)
    · simp only [hok, Bool.false_eq_true, if_false,
        mostrarError_run _ ⟨some r, some _⟩ _ (Or.inl rfl), throw_run]
      exact Paso.fallo _ _ (errorDe_status hrep hok)
  · simp only [mostrarError_run _ ⟨none, some m⟩ _ (Or.inr rfl), throw_run]
    exact Paso.fallo _ _ (errorDe_noResponse hrep)

end Castor

namespace Castor

/-! ## Step 8 -/

theorem paso8_run (B : String) (srv : Server) (w : World) :
    probarCreacionFacturaSinCliente B srv w =
      (.ok (), ⟨w.calls ++ [reqFacturaSinCliente B],
        w.out ++ salidaPaso8 (srv w.calls (reqFacturaSinCliente B))⟩) := by
  unfold probarCreacionFacturaSinCliente
  simp only [bind_run, tryCatch_run, mostrarTitulo_run, mostrarInfo_run, axios_run]
  rcases hrep : srv w.calls (reqFacturaSinCliente B) with r | m
  · by_cases hok : validateStatus r.status = true
    · simp [hok, mostrarError, messageGray, mostrarExito_run, salidaPaso8,
        cabeceraPaso8, lineaSeEsperabaFallo, typeError]
    · simp [hok, mostrarExito_run, salidaPaso8, cabeceraPaso8]
  · simp [mostrarExito_run, salidaPaso8, cabeceraPaso8]

/-! ## The try block of `ejecutarPruebas` -/

theorem forma_bind {α : Type} (m : Js α) (f : α → Js Unit) (w : World)
    (Q : Except JsError Unit × World → Prop)
    {srv : Server} {arg : JsVal} {msg : List Txt} {req : Request} {acc : Json → Bool}
    {valor : Json → α}
    (h : Paso srv arg msg req acc valor w (m w))
    (ht : ∀ e, stringOk arg = false → Q (.error e, w))
    (hf : ∀ e pre, ErrorDe acc (srv w.calls req) e →
      Q (.error e, ⟨w.calls ++ [req], pre ++ lineasError msg e⟩))
    (hs : ∀ r out, stringOk arg = true → srv w.calls req = .response r →
      validateStatus r.status = true → acc r.data = true →
      Q (f (valor r.data) ⟨w.calls ++ [req], out⟩)) :
    Q ((m >>= f) w) := by
  simp only [bind_run]
  generalize m w = res at h
  cases h with
  | titulo e harg => exact ht e harg
  | fallo e pre hde => exact hf e pre hde
  | exito r out harg hrep hok hacc => exact hs r out harg hrep hok hacc

theorem previos_zero (srv : Server) (P : List Request) : Previos srv P 0 :=
  fun _ hi => absurd hi (Nat.not_lt_zero _)

theorem previos_succ {srv : Server} {P : List Request} {k : Nat} {r : Response}
    (h : Previos srv P k) (hrep : replyAt srv P k = some (.response r))
    (hok : validateStatus r.status = true) (hacc : acepta (k + 1) r.data = true) :
    Previos srv P (k + 1) := by
  intro i hi
  rcases Nat.lt_succ_iff_lt_or_eq.mp hi with hlt | heq
  · exact h i hlt
  · subst heq
    exact ⟨r, hrep, hok, hacc⟩

theorem flujo_forma (B : String) (srv : Server) (out0 : List Line) :
    Forma B srv (clienteIdDe B srv) (facturaIdDe B srv)
      (flujoPrincipal B srv ⟨[], out0⟩) := by
  unfold facturaIdDe
  generalize hcid : clienteIdDe B srv = cid
  generalize hfid : idDe (srv [reqCrearCliente B, reqObtenerCliente B cid,
    reqListarClientes B] (reqCrearFactura B cid)) = fid
  unfold flujoPrincipal
  -- step 1
  refine forma_bind _ _ _ (Forma B srv cid fid) (paso1 B srv _) ?_ ?_ ?_
  · intro e h; simp [stringOk] at h
  · intro e pre hde
    exact Forma.aborto 1 (by decide) (by decide) e pre _ (previos_zero _ _) rfl hde
  intro r1 o1 _ hrep1 hok1 hacc1
  have hc : field "id" r1.data = cid := by
    rw [← hcid]; exact (congrArg idDe hrep1).symm
  simp only [hc]
  have p1 : Previos srv (plan B cid fid) 1 :=
    previos_succ (previos_zero _ _) (congrArg some hrep1) hok1 hacc1
  -- step 2
  refine forma_bind _ _ _ (Forma B srv cid fid) (paso2 B srv cid _) ?_ ?_ ?_
  · intro e h
    exact Forma.titulo 1 (by decide) (by decide) e _ p1 (Or.inl ⟨rfl, h⟩)
  · intro e pre hde
    exact Forma.aborto 2 (by decide) (by decide) e pre _ p1 rfl hde
  intro r2 o2 hcok hrep2 hok2 hacc2
  have p2 : Previos srv (plan B cid fid) 2 :=
    previos_succ p1 (congrArg some hrep2) hok2 hacc2
  -- step 3
  refine forma_bind _ _ _ (Forma B srv cid fid) (paso3 B srv _) ?_ ?_ ?_
  · intro e h; simp [stringOk] at h
  · intro e pre hde
    exact Forma.aborto 3 (by decide) (by decide) e pre _ p2 rfl hde
  intro r3 o3 _ hrep3 hok3 hacc3
  have p3 : Previos srv (plan B cid fid) 3 :=
    previos_succ p2 (congrArg some hrep3) hok3 hacc3
  -- step 4
  refine forma_bind _ _ _ (Forma B srv cid fid) (paso4 B srv cid _) ?_ ?_ ?_
  · intro e h
    rw [hcok] at h; cases h
  · intro e pre hde
    exact Forma.aborto 4 (by decide) (by decide) e pre _ p3 rfl hde
  intro r4 o4 _ hrep4 hok4 hacc4
  have hf : field "id" r4.data = fid := by
    rw [← hfid]; exact (congrArg idDe hrep4).symm
  simp only [hf]
  have p4 : Previos srv (plan B cid fid) 4 :=
    previos_succ p3 (congrArg some hrep4) hok4 hacc4
  -- step 5
  refine forma_bind _ _ _ (Forma B srv cid fid) (paso5 B srv fid _) ?_ ?_ ?_
  · intro e h
    exact Forma.titulo 4 (by decide) (by decide) e _ p4 (Or.inr ⟨rfl, h⟩)
  · intro e pre hde
    exact Forma.aborto 5 (by decide) (by decide) e pre _ p4 rfl hde
  intro r5 o5 hfok hrep5 hok5 hacc5
  have p5 : Previos srv (plan B cid fid) 5 :=
    previos_succ p4 (congrArg some hrep5) hok5 hacc5
  -- step 6
  refine forma_bind _ _ _ (Forma B srv cid fid) (paso6 B srv cid _) ?_ ?_ ?_
  · intro e h
    rw [hcok] at h; cases h
  · intro e pre hde
    exact Forma.aborto 6 (by decide) (by decide) e pre _ p5 rfl hde
  intro r6 o6 _ hrep6 hok6 hacc6
  have p6 : Previos srv (plan B cid fid) 6 :=
    previos_succ p5 (congrArg some hrep6) hok6 hacc6
  -- step 7
  refine forma_bind _ _ _ (Forma B srv cid fid) (paso7 B srv cid _) ?_ ?_ ?_
  · intro e h
    rw [hcok] at h; cases h
  · intro e pre hde
    exact Forma.aborto 7 (by decide) (by decide) e pre _ p6 rfl hde
  intro r7 o7 _ hrep7 hok7 hacc7
  have p7 : Previos srv (plan B cid fid) 7 :=
    previos_succ p6 (congrArg some hrep7) hok7 hacc7
  -- step 8 and the summary
  simp only [bind_run, paso8_run, mostrarTitulo_run, consoleLog_run,
    template_ok _ _ hcok, template_ok _ _ hfok]
  have h := @Forma.completo B srv cid fid o7 p7 hcok hfok
  simpa [resumen, plan] using h

/-- The process as a function of what the try block does. -/
theorem ejecutarPruebas_eq (B : String) (srv : Server) :
    ejecutarPruebas B srv =
      match flujoPrincipal B srv ⟨[], lineasEncabezado B⟩ with
      | (.ok _, w) => ⟨w.calls, w.out ++ lineasFin, none, none⟩
      | (.error _, w) => ⟨w.calls, w.out ++ seccionError B, some 1, none⟩ := by
  have henc : encabezado B ⟨[], []⟩ = (.ok (), ⟨[], lineasEncabezado B⟩) := rfl
  unfold ejecutarPruebas cuerpo
  simp only [bind_run, tryCatch_run, henc, pure_run]
  rcases flujoPrincipal B srv ⟨[], lineasEncabezado B⟩ with ⟨_ | _, w⟩
  · simp [errorEnLasPruebas, mostrarTitulo_run, seccionError]
  · simp [finDeLasPruebas, lineasFin]

end Castor

namespace Castor

/-! ## Facts about traces -/

theorem plan_length (B : String) (cid fid : JsVal) : (plan B cid fid).length = 8 := rfl

theorem replyAt_lt {srv : Server} {calls : List Request} {i : Nat} {rep : Reply}
    (h : replyAt srv calls i = some rep) : i < calls.length := by
  unfold replyAt at h
  by_contra hlt
  rw [List.getElem?_eq_none (Nat.le_of_not_lt hlt)] at h
  simp at h

theorem replyAt_take (srv : Server) (P : List Request) {i j : Nat} (h : i < j) :
    replyAt srv (P.take j) i = replyAt srv P i := by
  unfold replyAt
  rw [List.getElem?_take_of_lt h, List.take_take, Nat.min_eq_left (Nat.le_of_lt h)]

theorem previos_exito {srv : Server} {P : List Request} {k i : Nat} {rep : Reply}
    (h : Previos srv P k) (hi : i < k) (hrep : replyAt srv P i = some rep) :
    esExito rep = true := by
  obtain ⟨r, hr, hok, _⟩ := h i hi
  rw [hr] at hrep
  cases hrep
  exact hok

/-- The three ways a run can end. -/
theorem run_forma (B : String) (srv : Server) :
    Forma B srv (clienteIdDe B srv) (facturaIdDe B srv)
      (flujoPrincipal B srv ⟨[], lineasEncabezado B⟩) :=
  flujo_forma B srv _

/-! ## Calls issued by one step -/

theorem paso_calls {α : Type} {srv : Server} {arg : JsVal} {msg : List Txt} {req : Request}
    {acc : Json → Bool} {valor : Json → α} {w : World} {res : Except JsError α × World}
    (h : Paso srv arg msg req acc valor w res) (harg : stringOk arg = true) :
    res.2.calls = w.calls ++ [req] := by
  cases h with
  | titulo e hno => rw [harg] at hno; cases hno
  | fallo e pre hde => rfl
  | exito r out _ hrep hok hacc => rfl

theorem paso2_titulo (B : String) (srv : Server) (c : JsVal) (w : World)
    (h : stringOk c = false) : (probarObtenerCliente B srv c w).2 = w := by
  unfold probarObtenerCliente
  simp only [bind_run, template_err _ _ h]

theorem paso4_titulo (B : String) (srv : Server) (c : JsVal) (w : World)
    (h : stringOk c = false) : (probarCreacionFactura B srv c w).2 = w := by
  unfold probarCreacionFactura
  simp only [bind_run, template_err _ _ h]

theorem paso5_titulo (B : String) (srv : Server) (c : JsVal) (w : World)
    (h : stringOk c = false) : (probarObtenerFactura B srv c w).2 = w := by
  unfold probarObtenerFactura
  simp only [bind_run, template_err _ _ h]

theorem paso6_titulo (B : String) (srv : Server) (c : JsVal) (w : World)
    (h : stringOk c = false) : (probarListarFacturasPorCliente B srv c w).2 = w := by
  unfold probarListarFacturasPorCliente
  simp only [bind_run, template_err _ _ h]

theorem paso7_titulo (B : String) (srv : Server) (c : JsVal) (w : World)
    (h : stringOk c = false) : (probarActualizarCliente B srv c w).2 = w := by
  unfold probarActualizarCliente
  simp only [bind_run, template_err _ _ h]

end Castor

namespace Castor

/-! ## The claims -/

/-- C1 (fail-fast).  If the call of step `k`, for `k` from 1 to 7, was issued
and its reply is not a 2xx response (another status or a transport error),
then the run issued exactly the first `k` calls of the plan, so no call of a
later step, and the process ended through `process.exit(1)`, exit code 1. -/
theorem fail_fast (B : String) (srv : Server) (k : Nat) (rep : Reply)
    (hk1 : 1 ≤ k) (hk7 : k ≤ 7)
    (hrep : replyAt srv (ejecutarPruebas B srv).calls (k - 1) = some rep)
    (hfail : esExito rep = false) :
    (ejecutarPruebas B srv).calls = (planDe B srv).take k ∧
    (ejecutarPruebas B srv).calls.length = k ∧
    (ejecutarPruebas B srv).exit = some 1 ∧
    (ejecutarPruebas B srv).exitCode = 1 := by
  rw [ejecutarPruebas_eq] at hrep ⊢
  have h := run_forma B srv
  generalize flujoPrincipal B srv ⟨[], lineasEncabezado B⟩ = res at h hrep ⊢
  unfold planDe
  cases h with
  | completo pre hprev hcid hfid =>
    exfalso
    have := previos_exito hprev (by omega) hrep
    simp [this] at hfail
  | aborto j hj1 hj7 e pre rep1 hprev hrep1 hde =>
    have hlen : ((plan B (clienteIdDe B srv) (facturaIdDe B srv)).take j).length = j := by
      rw [List.length_take, plan_length]; omega
    have hlt := replyAt_lt hrep
    simp only [hlen] at hlt
    by_cases hkj : k = j
    · subst hkj
      exact ⟨rfl, hlen, rfl, rfl⟩
    · exfalso
      have hlt2 : k - 1 < j - 1 := by omega
      simp only [replyAt_take srv _ hlt] at hrep
      have := previos_exito hprev hlt2 hrep
      simp [this] at hfail
  | titulo j hj1 hj6 e out hprev hno =>
    exfalso
    have hlen : ((plan B (clienteIdDe B srv) (facturaIdDe B srv)).take j).length = j := by
      rw [List.length_take, plan_length]; omega
    have hlt := replyAt_lt hrep
    simp only [hlen] at hlt
    simp only [replyAt_take srv _ hlt] at hrep
    have := previos_exito hprev hlt hrep
    simp [this] at hfail

/-- C6, amended (fixed order, at most one call per step).  The calls of a
run, as methods and URLs, are an initial segment of the fixed sequence
POST /clientes, GET /clientes/id, GET /clientes, POST /facturas,
GET /facturas/id, GET /facturas?clienteId=id, PUT /clientes/id,
POST /facturas; a run issues at most 8 calls and a run that completes issues
exactly the 8 of the sequence.  Steps 1, 3 and 8 issue exactly one call.
Each of the steps 2, 4, 5, 6 and 7 issues exactly one call when the
identifier in its title can be printed, and none when it cannot: the title
raises before the try block. -/
theorem orden_fijo (B : String) (srv : Server) :
    (∃ cid fid : JsVal,
      (ejecutarPruebas B srv).calls.map rutaDe <+: secuenciaFija B cid fid ∧
      ((ejecutarPruebas B srv).exit = none →
        (ejecutarPruebas B srv).calls.map rutaDe = secuenciaFija B cid fid)) ∧
    (ejecutarPruebas B srv).calls.length ≤ 8 ∧
    ((ejecutarPruebas B srv).exit = none → (ejecutarPruebas B srv).calls.length = 8) ∧
    (∀ w, ∃ q, (probarCreacionCliente B srv w).2.calls = w.calls ++ [q] ∧
      rutaDe q = (.POST, [.lit B, .lit "/clientes"])) ∧
    (∀ c w, stringOk c = true →
      ∃ q, (probarObtenerCliente B srv c w).2.calls = w.calls ++ [q] ∧
        rutaDe q = (.GET, [.lit B, .lit "/clientes/", .tpl c])) ∧
    (∀ c w, stringOk c = false → (probarObtenerCliente B srv c w).2.calls = w.calls) ∧
    (∀ w, ∃ q, (probarListarClientes B srv w).2.calls = w.calls ++ [q] ∧
      rutaDe q = (.GET, [.lit B, .lit "/clientes"])) ∧
    (∀ c w, stringOk c = true →
      ∃ q, (probarCreacionFactura B srv c w).2.calls = w.calls ++ [q] ∧
        rutaDe q = (.POST, [.lit B, .lit "/facturas"])) ∧
    (∀ c w, stringOk c = false → (probarCreacionFactura B srv c w).2.calls = w.calls) ∧
    (∀ f w, stringOk f = true →
      ∃ q, (probarObtenerFactura B srv f w).2.calls = w.calls ++ [q] ∧
        rutaDe q = (.GET, [.lit B, .lit "/facturas/", .tpl f])) ∧
    (∀ f w, stringOk f = false → (probarObtenerFactura B srv f w).2.calls = w.calls) ∧
    (∀ c w, stringOk c = true →
      ∃ q, (probarListarFacturasPorCliente B srv c w).2.calls = w.calls ++ [q] ∧
        rutaDe q = (.GET, [.lit B, .lit "/facturas?clienteId=", .tpl c])) ∧
    (∀ c w, stringOk c = false →
      (probarListarFacturasPorCliente B srv c w).2.calls = w.calls) ∧
    (∀ c w, stringOk c = true →
      ∃ q, (probarActualizarCliente B srv c w).2.calls = w.calls ++ [q] ∧
        rutaDe q = (.PUT, [.lit B, .lit "/clientes/", .tpl c])) ∧
    (∀ c w, stringOk c = false → (probarActualizarCliente B srv c w).2.calls = w.calls) ∧
    (∀ w, ∃ q, (probarCreacionFacturaSinCliente B srv w).2.calls = w.calls ++ [q] ∧
      rutaDe q = (.POST, [.lit B, .lit "/facturas"])) := by
  have hplan : ∀ c f, (plan B c f).map rutaDe = secuenciaFija B c f := fun _ _ => rfl
  have hrun : (∃ cid fid : JsVal,
      (ejecutarPruebas B srv).calls.map rutaDe <+: secuenciaFija B cid fid ∧
      ((ejecutarPruebas B srv).exit = none →
        (ejecutarPruebas B srv).calls.map rutaDe = secuenciaFija B cid fid)) ∧
      (ejecutarPruebas B srv).calls.length ≤ 8 ∧
      ((ejecutarPruebas B srv).exit = none → (ejecutarPruebas B srv).calls.length = 8) := by
    rw [ejecutarPruebas_eq]
    have h := run_forma B srv
    generalize flujoPrincipal B srv ⟨[], lineasEncabezado B⟩ = res at h ⊢
    have hlen : ∀ j, j ≤ 7 →
        ((plan B (clienteIdDe B srv) (facturaIdDe B srv)).take j).length ≤ 8 := by
      intro j hj
      rw [List.length_take, plan_length]; omega
    have hpre : ∀ j, ((plan B (clienteIdDe B srv) (facturaIdDe B srv)).take j).map rutaDe
        <+: secuenciaFija B (clienteIdDe B srv) (facturaIdDe B srv) := by
      intro j
      rw [← hplan, List.map_take]
      exact List.take_prefix _ _
    cases h with
    | completo pre hprev hcid hfid =>
      refine ⟨⟨clienteIdDe B srv, facturaIdDe B srv, ?_, fun _ => hplan _ _⟩,
        Nat.le_refl _, fun _ => rfl⟩
      show (plan B _ _).map rutaDe <+: _
      rw [hplan]
    | aborto j hj1 hj7 e pre rep1 hprev hrep1 hde =>
      exact ⟨⟨clienteIdDe B srv, facturaIdDe B srv, hpre j, fun h => nomatch h⟩,
        hlen j hj7, fun h => nomatch h⟩
    | titulo j hj1 hj6 e out hprev hno =>
      exact ⟨⟨clienteIdDe B srv, facturaIdDe B srv, hpre j, fun h => nomatch h⟩,
        hlen j (by omega), fun h => nomatch h⟩
  exact ⟨hrun.1, hrun.2.1, hrun.2.2,
    fun w => ⟨_, paso_calls (paso1 B srv w) rfl, rfl⟩,
    fun c w h => ⟨_, paso_calls (paso2 B srv c w) h, rfl⟩,
    fun c w h => by rw [paso2_titulo B srv c w h],
    fun w => ⟨_, paso_calls (paso3 B srv w) rfl, rfl⟩,
    fun c w h => ⟨_, paso_calls (paso4 B srv c w) h, rfl⟩,
    fun c w h => by rw [paso4_titulo B srv c w h],
    fun f w h => ⟨_, paso_calls (paso5 B srv f w) h, rfl⟩,
    fun f w h => by rw [paso5_titulo B srv f w h],
    fun c w h => ⟨_, paso_calls (paso6 B srv c w) h, rfl⟩,
    fun c w h => by rw [paso6_titulo B srv c w h],
    fun c w h => ⟨_, paso_calls (paso7 B srv c w) h, rfl⟩,
    fun c w h => by rw [paso7_titulo B srv c w h],
    fun w => ⟨reqFacturaSinCliente B, by rw [paso8_run], rfl⟩⟩

/-- C3 (identifier threading).  In a run that completes, the first and the
fourth call were answered by responses `r1` (create-customer) and `r4`
(create-invoice); the `id` field of `r1` is the identifier in the URL of
get-customer, in the `clienteId` of the body of create-invoice, in the query
of list-invoices and in the URL of update-customer; the `id` field of `r4`
is the identifier in the URL of get-invoice; and the summary prints these
two values. -/
theorem hilo_de_identificadores (B : String) (srv : Server)
    (hfin : (ejecutarPruebas B srv).exit = none) :
    ∃ r1 r4 : Response,
      replyAt srv (ejecutarPruebas B srv).calls 0 = some (.response r1) ∧
      replyAt srv (ejecutarPruebas B srv).calls 3 = some (.response r4) ∧
      (ejecutarPruebas B srv).calls.map (fun q => (q.method, q.url)) =
        [ (.POST, [.lit B, .lit "/clientes"]),
          (.GET, [.lit B, .lit "/clientes/", .tpl (field "id" r1.data)]),
          (.GET, [.lit B, .lit "/clientes"]),
          (.POST, [.lit B, .lit "/facturas"]),
          (.GET, [.lit B, .lit "/facturas/", .tpl (field "id" r4.data)]),
          (.GET, [.lit B, .lit "/facturas?clienteId=", .tpl (field "id" r1.data)]),
          (.PUT, [.lit B, .lit "/clientes/", .tpl (field "id" r1.data)]),
          (.POST, [.lit B, .lit "/facturas"]) ] ∧
      (∃ items, (ejecutarPruebas B srv).calls[3]?.map (fun q => q.body) =
        some (some [("clienteId", field "id" r1.data), ("items", items)])) ∧
      [.lit "✓ Cliente creado con ID: ", .tpl (field "id" r1.data)]
        ∈ (ejecutarPruebas B srv).out ∧
      [.lit "✓ Factura creada con ID: ", .tpl (field "id" r4.data)]
        ∈ (ejecutarPruebas B srv).out := by
  rw [ejecutarPruebas_eq] at hfin ⊢
  have h := run_forma B srv
  generalize flujoPrincipal B srv ⟨[], lineasEncabezado B⟩ = res at h hfin ⊢
  cases h with
  | completo pre hprev hcid hfid =>
    obtain ⟨r1, h1, -, -⟩ := hprev 0 (by decide)
    obtain ⟨r4, h4, -, -⟩ := hprev 3 (by decide)
    have e1 : srv [] (reqCrearCliente B) = .response r1 := Option.some.inj h1
    have c1 : clienteIdDe B srv = field "id" r1.data := by
      unfold clienteIdDe; rw [e1]; rfl
    have e4 : srv [reqCrearCliente B, reqObtenerCliente B (clienteIdDe B srv),
        reqListarClientes B] (reqCrearFactura B (clienteIdDe B srv)) = .response r4 :=
      Option.some.inj h4
    have c4 : facturaIdDe B srv = field "id" r4.data := by
      unfold facturaIdDe; rw [e4]; rfl
    refine ⟨r1, r4, h1, h4, ?_, ?_, ?_, ?_⟩
    · simp only [c1, c4]; rfl
    · simp only [c1]; exact ⟨_, rfl⟩
    · simp [c1, resumen]
    · simp [c4, resumen]
  | aborto j hj1 hj7 e pre rep1 hprev hrep1 hde => cases hfin
  | titulo j hj1 hj6 e out hprev hno => cases hfin

end Castor

namespace Castor

/-- Witness of C1 (scenario D): create-customer succeeds, get-customer
answers 404; the run stops after two calls with exit code 1. -/
theorem fail_fast_witness :
    replyAt srvSinCliente (ejecutarPruebas local8080 srvSinCliente).calls (2 - 1)
      = some noEncontrado ∧
    esExito noEncontrado = false ∧
    (ejecutarPruebas local8080 srvSinCliente).calls = (planDe local8080 srvSinCliente).take 2 ∧
    (ejecutarPruebas local8080 srvSinCliente).calls.length = 2 ∧
    (ejecutarPruebas local8080 srvSinCliente).exit = some 1 ∧
    (ejecutarPruebas local8080 srvSinCliente).exitCode = 1 :=
  ⟨rfl, rfl, fail_fast local8080 srvSinCliente 2 noEncontrado (by decide) (by decide) rfl rfl⟩

/-- Witness of C6: against a correct API the run completes, so its calls
are the eight of the fixed sequence; and step 2 issues one call for the
identifier 1. -/
theorem orden_fijo_witness :
    (ejecutarPruebas local8080 srvCorrecto).exit = none ∧
    (ejecutarPruebas local8080 srvCorrecto).calls.length = 8 ∧
    stringOk (some (.num 1)) = true ∧
    ∃ q, (probarObtenerCliente local8080 srvCorrecto (some (.num 1)) ⟨[], []⟩).2.calls
        = [] ++ [q] ∧
      rutaDe q = (.GET, [.lit local8080, .lit "/clientes/", .tpl (some (.num 1))]) :=
  ⟨rfl, (orden_fijo local8080 srvCorrecto).2.2.1 rfl, rfl,
    (orden_fijo local8080 srvCorrecto).2.2.2.2.1 (some (.num 1)) ⟨[], []⟩ rfl⟩

/-- Witness of C3: against a correct API the run completes, so the
identifiers of the calls and of the summary are those of the responses. -/
theorem hilo_de_identificadores_witness :
    (ejecutarPruebas local8080 srvCorrecto).exit = none ∧
    ∃ r1 r4 : Response,
      replyAt srvCorrecto (ejecutarPruebas local8080 srvCorrecto).calls 0
        = some (.response r1) ∧
      replyAt srvCorrecto (ejecutarPruebas local8080 srvCorrecto).calls 3
        = some (.response r4) ∧
      (ejecutarPruebas local8080 srvCorrecto).calls.map (fun q => (q.method, q.url)) =
        [ (.POST, [.lit local8080, .lit "/clientes"]),
          (.GET, [.lit local8080, .lit "/clientes/", .tpl (field "id" r1.data)]),
          (.GET, [.lit local8080, .lit "/clientes"]),
          (.POST, [.lit local8080, .lit "/facturas"]),
          (.GET, [.lit local8080, .lit "/facturas/", .tpl (field "id" r4.data)]),
          (.GET, [.lit local8080, .lit "/facturas?clienteId=", .tpl (field "id" r1.data)]),
          (.PUT, [.lit local8080, .lit "/clientes/", .tpl (field "id" r1.data)]),
          (.POST, [.lit local8080, .lit "/facturas"]) ] ∧
      (∃ items, (ejecutarPruebas local8080 srvCorrecto).calls[3]?.map (fun q => q.body) =
        some (some [("clienteId", field "id" r1.data), ("items", items)])) ∧
      [.lit "✓ Cliente creado con ID: ", .tpl (field "id" r1.data)]
        ∈ (ejecutarPruebas local8080 srvCorrecto).out ∧
      [.lit "✓ Factura creada con ID: ", .tpl (field "id" r4.data)]
        ∈ (ejecutarPruebas local8080 srvCorrecto).out :=
  ⟨rfl, hilo_de_identificadores local8080 srvCorrecto rfl⟩

/-- C2 (step 8 never influences the exit code).  Step 8 returns without
raising in every world and against every server.  The call of step 8 is
issued exactly when steps 1 to 7 succeeded: each of the first seven calls
of the plan is answered with 2xx and read without an exception, and both
identifiers can be printed.  In every such run, whatever the reply to the
call of step 8, `process.exit` is not called, no exception leaves
`ejecutarPruebas`, the exit code is 0, and the output ends with what step 8
prints, the final summary and the closing banner. -/
theorem paso8_no_influye (B : String) (srv : Server) :
    (∀ w, (probarCreacionFacturaSinCliente B srv w).1 = .ok ()) ∧
    ((ejecutarPruebas B srv).calls.length = 8 ↔
      (Previos srv (planDe B srv) 7 ∧ stringOk (clienteIdDe B srv) = true ∧
        stringOk (facturaIdDe B srv) = true)) ∧
    ((ejecutarPruebas B srv).calls.length = 8 →
      (ejecutarPruebas B srv).exit = none ∧
      (ejecutarPruebas B srv).uncaught = none ∧
      (ejecutarPruebas B srv).exitCode = 0 ∧
      ∃ pre, (ejecutarPruebas B srv).out =
        pre ++ salidaPaso8 (srv ((planDe B srv).take 7) (reqFacturaSinCliente B)) ++
          resumen (clienteIdDe B srv) (facturaIdDe B srv) ++ lineasFin) := by
  refine ⟨fun w => by rw [paso8_run], ?_⟩
  rw [ejecutarPruebas_eq]
  have h := run_forma B srv
  generalize flujoPrincipal B srv ⟨[], lineasEncabezado B⟩ = res at h ⊢
  unfold planDe
  cases h with
  | completo pre hprev hcid hfid =>
    exact ⟨⟨fun _ => ⟨hprev, hcid, hfid⟩, fun _ => rfl⟩,
      fun _ => ⟨rfl, rfl, rfl, pre, rfl⟩⟩
  | aborto j hj1 hj7 e pre rep1 hprev hrep1 hde =>
    have hlen : ((plan B (clienteIdDe B srv) (facturaIdDe B srv)).take j).length = j := by
      rw [List.length_take, plan_length]; omega
    have hne : ¬ ((plan B (clienteIdDe B srv) (facturaIdDe B srv)).take j).length = 8 := by
      rw [hlen]; omega
    refine ⟨⟨fun h => absurd h hne, ?_⟩, fun h => absurd h hne⟩
    rintro ⟨h7, -, -⟩
    exfalso
    obtain ⟨r, hr, hok, hacc⟩ := h7 (j - 1) (by omega)
    rw [hr] at hrep1
    cases hrep1
    have hj : j - 1 + 1 = j := by omega
    rw [hj] at hacc
    simp [ErrorDe, hok, hacc] at hde
  | titulo j hj1 hj6 e out hprev hno =>
    have hlen : ((plan B (clienteIdDe B srv) (facturaIdDe B srv)).take j).length = j := by
      rw [List.length_take, plan_length]; omega
    have hne : ¬ ((plan B (clienteIdDe B srv) (facturaIdDe B srv)).take j).length = 8 := by
      rw [hlen]; omega
    refine ⟨⟨fun h => absurd h hne, ?_⟩, fun h => absurd h hne⟩
    rintro ⟨-, hc, hf⟩
    rcases hno with ⟨-, h⟩ | ⟨-, h⟩
    · rw [hc] at h; cases h
    · rw [hf] at h; cases h

/-- Witness of C2 (scenario C): steps 1 to 7 succeed and the API accepts
the invoice of step 8; the exit code is 0. -/
theorem paso8_no_influye_witness :
    (ejecutarPruebas local8080 srvAceptaTodo).calls.length = 8 ∧
    (ejecutarPruebas local8080 srvAceptaTodo).exit = none ∧
    (ejecutarPruebas local8080 srvAceptaTodo).uncaught = none ∧
    (ejecutarPruebas local8080 srvAceptaTodo).exitCode = 0 ∧
    ∃ pre, (ejecutarPruebas local8080 srvAceptaTodo).out =
      pre ++ salidaPaso8 (srvAceptaTodo ((planDe local8080 srvAceptaTodo).take 7)
          (reqFacturaSinCliente local8080)) ++
        resumen (clienteIdDe local8080 srvAceptaTodo) (facturaIdDe local8080 srvAceptaTodo) ++
        lineasFin :=
  ⟨rfl, (paso8_no_influye local8080 srvAceptaTodo).2.2 rfl⟩

/-- C10 (the catch branch of step 8 does not inspect the error).  Whatever
is raised inside the try block of step 8, the step returns normally after
printing the success record
`Validación correcta: La factura no se puede crear sin un cliente válido`:
for a transport error the record has no payload; for a status outside 2xx
its payload is the body of the response, printed when truthy; for a 2xx
reply the rendering of the failure record raises after its first line and
the success record, without payload, follows.  A run that reaches step 8
then prints the summary line
`Validaciones de negocio funcionando correctamente`. -/
theorem paso8_captura_todo (B : String) (srv : Server) :
    (∀ w m, srv w.calls ⟨.POST, [.lit B, .lit "/facturas"], some facturaDataSinCliente⟩ = .noResponse m →
      probarCreacionFacturaSinCliente B srv w =
        (.ok (), ⟨w.calls ++ [⟨.POST, [.lit B, .lit "/facturas"], some facturaDataSinCliente⟩],
          w.out ++
            [ [.lit "\n", .rep "=" 80],
              [.lit "  ", .lit "PRUEBA 8: Intentar Crear Factura sin Cliente (Debe Fallar)"],
              [.rep "=" 80, .lit "\n"],
              [.lit "ℹ", .lit " ",
               .lit "Enviando request POST /facturas (con cliente inexistente)..."],
              [.lit "✓", .lit " ",
               .lit "Validación correcta: La factura no se puede crear sin un cliente válido"],
              [.lit ""] ]⟩)) ∧
    (∀ w r, srv w.calls ⟨.POST, [.lit B, .lit "/facturas"], some facturaDataSinCliente⟩ = .response r →
      validateStatus r.status = false →
      probarCreacionFacturaSinCliente B srv w =
        (.ok (), ⟨w.calls ++ [⟨.POST, [.lit B, .lit "/facturas"], some facturaDataSinCliente⟩],
          w.out ++
            ([ [.lit "\n", .rep "=" 80],
               [.lit "  ", .lit "PRUEBA 8: Intentar Crear Factura sin Cliente (Debe Fallar)"],
               [.rep "=" 80, .lit "\n"],
               [.lit "ℹ", .lit " ",
                .lit "Enviando request POST /facturas (con cliente inexistente)..."],
               [.lit "✓", .lit " ",
                .lit "Validación correcta: La factura no se puede crear sin un cliente válido"] ]
              ++ (if truthy (some r.data) then [[.json r.data]] else [])
              ++ [[.lit ""]])⟩)) ∧
    (∀ w r, srv w.calls ⟨.POST, [.lit B, .lit "/facturas"], some facturaDataSinCliente⟩ = .response r →
      validateStatus r.status = true →
      probarCreacionFacturaSinCliente B srv w =
        (.ok (), ⟨w.calls ++ [⟨.POST, [.lit B, .lit "/facturas"], some facturaDataSinCliente⟩],
          w.out ++
            [ [.lit "\n", .rep "=" 80],
              [.lit "  ", .lit "PRUEBA 8: Intentar Crear Factura sin Cliente (Debe Fallar)"],
              [.rep "=" 80, .lit "\n"],
              [.lit "ℹ", .lit " ",
               .lit "Enviando request POST /facturas (con cliente inexistente)..."],
              [.lit "✗", .lit " ", .lit "ERROR: Se esperaba que fallara pero tuvo éxito"],
              [.lit "✓", .lit " ",
               .lit "Validación correcta: La factura no se puede crear sin un cliente válido"],
              [.lit ""] ]⟩)) ∧
    ((ejecutarPruebas B srv).calls.length = 8 →
      [.lit "✓ Validaciones de negocio funcionando correctamente"]
        ∈ (ejecutarPruebas B srv).out) := by
  refine ⟨?_, ?_, ?_, ?_⟩
  · intro w m h
    have h1 : srv w.calls (reqFacturaSinCliente B) = .noResponse m := h
    rw [paso8_run, h1]; rfl
  · intro w r h hok
    have h1 : srv w.calls (reqFacturaSinCliente B) = .response r := h
    rw [paso8_run, h1]
    simp [reqFacturaSinCliente, salidaPaso8, hok, cabeceraPaso8, lineasTitulo, lineasExito, msgValidacionCorrecta]
  · intro w r h hok
    have h1 : srv w.calls (reqFacturaSinCliente B) = .response r := h
    rw [paso8_run, h1]
    simp [reqFacturaSinCliente, salidaPaso8, hok, cabeceraPaso8, lineasTitulo, lineasExito, msgValidacionCorrecta,
      lineaSeEsperabaFallo, msgSeEsperabaFallo]
  · rw [ejecutarPruebas_eq]
    have h := run_forma B srv
    generalize flujoPrincipal B srv ⟨[], lineasEncabezado B⟩ = res at h ⊢
    cases h with
    | completo pre hprev hcid hfid =>
      intro _
      simp [resumen]
    | aborto j hj1 hj7 e pre rep1 hprev hrep1 hde =>
      intro h
      have : ((plan B (clienteIdDe B srv) (facturaIdDe B srv)).take j).length = j := by
        rw [List.length_take, plan_length]; omega
      simp only [this] at h
      omega
    | titulo j hj1 hj6 e out hprev hno =>
      intro h
      have : ((plan B (clienteIdDe B srv) (facturaIdDe B srv)).take j).length = j := by
        rw [List.length_take, plan_length]; omega
      simp only [this] at h
      omega

/-- Witness of C10: the API becomes unreachable before step 8; the step
prints the success record without payload and the run prints the summary
line. -/
theorem paso8_captura_todo_witness :
    (ejecutarPruebas local8080 srvCaidoAlFinal).calls.length = 8 ∧
    probarCreacionFacturaSinCliente local8080 srvCaido ⟨[], []⟩ =
      (.ok (), ⟨[] ++ [⟨.POST, [.lit local8080, .lit "/facturas"], some facturaDataSinCliente⟩],
        [] ++
          [ [.lit "\n", .rep "=" 80],
            [.lit "  ", .lit "PRUEBA 8: Intentar Crear Factura sin Cliente (Debe Fallar)"],
            [.rep "=" 80, .lit "\n"],
            [.lit "ℹ", .lit " ",
             .lit "Enviando request POST /facturas (con cliente inexistente)..."],
            [.lit "✓", .lit " ",
             .lit "Validación correcta: La factura no se puede crear sin un cliente válido"],
            [.lit ""] ]⟩) ∧
    [.lit "✓ Validaciones de negocio funcionando correctamente"]
      ∈ (ejecutarPruebas local8080 srvCaidoAlFinal).out :=
  ⟨rfl, (paso8_captura_todo local8080 srvCaido).1 ⟨[], []⟩ _ rfl,
    (paso8_captura_todo local8080 srvCaidoAlFinal).2.2.2 rfl⟩

end Castor

namespace Castor

/-- C5 (negative-test polarity), the code at the failing input.  When the
API accepts the invoice of step 8, the step prints the first line of the
failure record, `ERROR: Se esperaba que fallara pero tuvo éxito`, and then
the success record `Validación correcta: ...` as well. -/
theorem paso8_aceptada_imprime_exito :
    probarCreacionFacturaSinCliente local8080 (fun _ _ => .response ⟨201, factura7⟩) ⟨[], []⟩ =
      (.ok (), ⟨[reqFacturaSinCliente local8080],
        [ [.lit "\n", .rep "=" 80],
          [.lit "  ", .lit "PRUEBA 8: Intentar Crear Factura sin Cliente (Debe Fallar)"],
          [.rep "=" 80, .lit "\n"],
          [.lit "ℹ", .lit " ",
           .lit "Enviando request POST /facturas (con cliente inexistente)..."],
          [.lit "✗", .lit " ", .lit "ERROR: Se esperaba que fallara pero tuvo éxito"],
          [.lit "✓", .lit " ",
           .lit "Validación correcta: La factura no se puede crear sin un cliente válido"],
          [.lit ""] ]⟩) := rfl

/-- C4 (no presenter operation throws), the code at the failing input.  The
call `mostrarError('ERROR: Se esperaba que fallara pero tuvo éxito', {})` of
step 8 prints its first line and raises a `TypeError`.  `mostrarError`
returns normally exactly for an error that has a response or a message;
`mostrarTitulo`, `mostrarExito` and `mostrarInfo` always return normally. -/
theorem mostrarError_lanza_con_objeto_vacio :
    (∀ w, mostrarError msgSeEsperabaFallo ⟨none, none⟩ w =
      (.error (typeError "Cannot read properties of undefined, reading gray"),
        ⟨w.calls, w.out ++ [lineaSeEsperabaFallo]⟩)) ∧
    (∀ m e w, (mostrarError m e w).1 = .ok () ↔
      (e.response.isSome = true ∨ e.message.isSome = true)) ∧
    (∀ t w, (mostrarTitulo t w).1 = .ok ()) ∧
    (∀ m d w, (mostrarExito m d w).1 = .ok ()) ∧
    (∀ m w, (mostrarInfo m w).1 = .ok ()) := by
  refine ⟨fun w => rfl, ?_, fun t w => by rw [mostrarTitulo_run],
    fun m d w => by rw [mostrarExito_run], fun m w => by rw [mostrarInfo_run]⟩
  intro m e w
  constructor
  · intro h
    obtain ⟨r, msg⟩ := e
    cases r with
    | some r => exact Or.inl rfl
    | none =>
      cases msg with
      | some s => exact Or.inr rfl
      | none => simp [mostrarError, messageGray] at h
  · intro h
    rw [mostrarError_run m e w h]

/-- C7, counterexample.  The API answers create-customer with 201 and a body
without `id`: step 1 returns `undefined`, nothing is recorded as failed, and
the second call of the run is GET /clientes/undefined. -/
theorem crearCliente_sin_id_continua :
    probarCreacionCliente local8080 srvClienteSinId ⟨[], []⟩ =
      (.ok none, ⟨[reqCrearCliente local8080],
        lineasTitulo [.lit "PRUEBA 1: Crear Cliente"] ++
        [[.lit "ℹ", .lit " ", .lit "Enviando request POST /clientes..."]] ++
        lineasExito [.lit "Cliente creado exitosamente"]
          (some (.obj [("nombre", .str "Empresa de Prueba S.A.S.")]))⟩) ∧
    (ejecutarPruebas local8080 srvClienteSinId).calls =
      [reqCrearCliente local8080, reqObtenerCliente local8080 none] :=
  ⟨rfl, rfl⟩

/-- C7, amended.  Step 1 returns a value exactly when POST /clientes is
answered with a 2xx response whose body is not `null`; the value is the `id`
field of the body, `undefined` when the body has none. -/
theorem crearCliente_exito_sii (B : String) (srv : Server) (w : World) (v : JsVal) :
    (probarCreacionCliente B srv w).1 = .ok v ↔
      ∃ r, srv w.calls (reqCrearCliente B) = .response r ∧
        validateStatus r.status = true ∧ r.data ≠ .null ∧ v = field "id" r.data := by
  have h := paso1 B srv w
  generalize probarCreacionCliente B srv w = res at h ⊢
  cases h with
  | titulo e harg => simp [stringOk] at harg
  | fallo e pre hde =>
    constructor
    · intro h; cases h
    · rintro ⟨r, hr, hok, hnn, -⟩
      exfalso
      rw [hr] at hde
      have hn : esNull r.data = false := by
        cases hd : r.data <;> first | rfl | exact absurd hd hnn
      simp [ErrorDe, hok, acepta, hn] at hde
  | exito r out harg hrep hok hacc =>
    have hnn : r.data ≠ .null := by
      intro hd
      rw [hd] at hacc
      simp [acepta, esNull] at hacc
    constructor
    · intro h
      refine ⟨r, hrep, hok, hnn, ?_⟩
      exact (Except.ok.inj h).symm
    · rintro ⟨r1, hr1, -, -, hv⟩
      rw [hrep] at hr1
      cases hr1
      rw [hv]

/-- C8, counterexample.  The API answers create-invoice with 201 and a body
that has the four amounts and neither `id` nor `numeroFactura`: step 4
returns `undefined`, nothing is recorded as failed, and the fifth call of
the run is GET /facturas/undefined. -/
theorem crearFactura_sin_id_continua :
    (probarCreacionFactura local8080 (fun _ _ => .response ⟨201, facturaSinId⟩)
      (some (.num 1)) ⟨[], []⟩).1 = .ok none ∧
    (ejecutarPruebas local8080 srvFacturaSinId).calls =
      [ reqCrearCliente local8080,
        reqObtenerCliente local8080 (some (.num 1)),
        reqListarClientes local8080,
        reqCrearFactura local8080 (some (.num 1)),
        reqObtenerFactura local8080 none ] :=
  ⟨rfl, rfl⟩

/-- C8, amended.  Step 4 returns a value exactly when the customer
identifier can be printed in its title and POST /facturas is answered with a
2xx response whose body is not `null`, whose `numeroFactura` can be printed
(an absent one prints as `undefined`) and whose `subtotal`, `impuestos`,
`descuentos` and `total` are present with a working `toLocaleString`; the
value is the `id` field of the body, `undefined` when the body has none. -/
theorem crearFactura_exito_sii (B : String) (srv : Server) (cid : JsVal) (w : World)
    (v : JsVal) :
    (probarCreacionFactura B srv cid w).1 = .ok v ↔
      stringOk cid = true ∧
      ∃ r, srv w.calls (reqCrearFactura B cid) = .response r ∧
        validateStatus r.status = true ∧
        r.data ≠ .null ∧
        stringOk (field "numeroFactura" r.data) = true ∧
        localeOk (field "subtotal" r.data) = true ∧
        localeOk (field "impuestos" r.data) = true ∧
        localeOk (field "descuentos" r.data) = true ∧
        localeOk (field "total" r.data) = true ∧
        v = field "id" r.data := by
  have h := paso4 B srv cid w
  generalize probarCreacionFactura B srv cid w = res at h ⊢
  cases h with
  | titulo e harg =>
    constructor
    · intro h; cases h
    · rintro ⟨hc, -⟩
      rw [hc] at harg; cases harg
  | fallo e pre hde =>
    constructor
    · intro h; cases h
    · rintro ⟨-, r, hr, hok, hnn, h0, h1, h2, h3, h4, -⟩
      exfalso
      rw [hr] at hde
      have hn : esNull r.data = false := by
        cases hd : r.data <;> first | rfl | exact absurd hd hnn
      simp [ErrorDe, hok, acepta, hn, h0, h1, h2, h3, h4] at hde
  | exito r out harg hrep hok hacc =>
    have hnn : r.data ≠ .null := by
      intro hd
      rw [hd] at hacc
      simp [acepta, esNull] at hacc
    simp only [acepta, Bool.and_eq_true] at hacc
    obtain ⟨⟨⟨⟨⟨-, h0⟩, h1⟩, h2⟩, h3⟩, h4⟩ := hacc
    constructor
    · intro h
      exact ⟨harg, r, hrep, hok, hnn, h0, h1, h2, h3, h4, (Except.ok.inj h).symm⟩
    · rintro ⟨-, r1, hr1, -, -, -, -, -, -, -, hv⟩
      rw [hrep] at hr1
      cases hr1
      rw [hv]

/-- C9, counterexample.  The API answers create-customer with 201 and an
`id` that is an object with an own `toString`: step 1 returns, the title of
step 2 raises outside its try block, and the run ends through
`process.exit(1)` after one call without any failure record in the
output. -/
theorem aborto_sin_registro :
    (probarCreacionCliente local8080 srvIdRaro ⟨[], []⟩).1 = .ok (some idRaro) ∧
    (ejecutarPruebas local8080 srvIdRaro).exit = some 1 ∧
    (ejecutarPruebas local8080 srvIdRaro).calls = [reqCrearCliente local8080] ∧
    (ejecutarPruebas local8080 srvIdRaro).out =
      lineasEncabezado local8080 ++ lineasTitulo [.lit "PRUEBA 1: Crear Cliente"] ++
      [[.lit "ℹ", .lit " ", .lit "Enviando request POST /clientes..."]] ++
      lineasExito [.lit "Cliente creado exitosamente"] (some (.obj [("id", idRaro)])) ++
      seccionError local8080 ∧
    ∀ m, (Txt.lit "✗" :: Txt.lit " " :: m) ∉ (ejecutarPruebas local8080 srvIdRaro).out := by
  have h : (ejecutarPruebas local8080 srvIdRaro).out =
      lineasEncabezado local8080 ++ lineasTitulo [.lit "PRUEBA 1: Crear Cliente"] ++
      [[.lit "ℹ", .lit " ", .lit "Enviando request POST /clientes..."]] ++
      lineasExito [.lit "Cliente creado exitosamente"] (some (.obj [("id", idRaro)])) ++
      seccionError local8080 := rfl
  refine ⟨rfl, rfl, rfl, h, fun m => ?_⟩
  rw [h]
  simp [lineasEncabezado, lineasTitulo, lineasExito, seccionError, truthy]

/-- C9, amended.  A run that aborts ends in one of two ways.  Either the
abort is that of a step `k` from 1 to 7 whose call was the last one issued:
the error `e` of the step is the rejection of its reply or an exception
raised while reading its 2xx response, the output ends with the failure
record of step `k` (its message `Error al ...`, then status and body of the
response or else the error message) followed by the section
`ERROR EN LAS PRUEBAS`, and `mostrarError` returns normally on `e`.  Or
step 1 (one call issued) or step 4 (four calls issued) returned, from a 2xx
response read without exception, an identifier that cannot be printed: the
title of the next step raised outside its try block and the output ends with
the section. -/
theorem fallo_registrado (B : String) (srv : Server)
    (hexit : (ejecutarPruebas B srv).exit = some 1) :
    (∃ (k : Nat) (pre : List Line) (e : JsError) (rep : Reply),
      1 ≤ k ∧ k ≤ 7 ∧ (ejecutarPruebas B srv).calls.length = k ∧
      replyAt srv (ejecutarPruebas B srv).calls (k - 1) = some rep ∧
      ErrorDe (acepta k) rep e ∧
      (ejecutarPruebas B srv).out =
        pre ++ lineasError (mensajeError k) e ++ seccionError B ∧
      ((∃ r, e.response = some r ∧
          detalleError e = [[.lit "Status:", .status r.status], [.lit "Error:", .json r.data]]) ∨
       (∃ m, e.response = none ∧ e.message = some m ∧
          detalleError e = [[.lit "Error:", .lit m]])) ∧
      ∀ m w, (mostrarError m e w).1 = .ok ()) ∨
    (∃ (k : Nat) (r : Response) (pre : List Line),
      (k = 1 ∨ k = 4) ∧ (ejecutarPruebas B srv).calls.length = k ∧
      replyAt srv (ejecutarPruebas B srv).calls (k - 1) = some (.response r) ∧
      validateStatus r.status = true ∧ acepta k r.data = true ∧
      stringOk (field "id" r.data) = false ∧
      (ejecutarPruebas B srv).out = pre ++ seccionError B) := by
  rw [ejecutarPruebas_eq] at hexit ⊢
  have h := run_forma B srv
  generalize flujoPrincipal B srv ⟨[], lineasEncabezado B⟩ = res at h hexit ⊢
  cases h with
  | completo pre hprev hcid hfid => cases hexit
  | aborto j hj1 hj7 e pre rep1 hprev hrep1 hde =>
    left
    have hlen : ((plan B (clienteIdDe B srv) (facturaIdDe B srv)).take j).length = j := by
      rw [List.length_take, plan_length]; omega
    have hdet : (∃ r, e.response = some r ∧ detalleError e =
          [[.lit "Status:", .status r.status], [.lit "Error:", .json r.data]]) ∨
        (∃ m, e.response = none ∧ e.message = some m ∧
          detalleError e = [[.lit "Error:", .lit m]]) := by
      obtain ⟨er, em⟩ := e
      cases rep1 with
      | response r =>
        by_cases hok : validateStatus r.status = true
        · simp only [ErrorDe, hok, if_true] at hde
          obtain ⟨-, h1, h2⟩ := hde
          subst h1
          cases em with
          | none => simp at h2
          | some m => exact Or.inr ⟨m, rfl, rfl, rfl⟩
        · simp only [ErrorDe, hok] at hde
          cases hde
          exact Or.inl ⟨r, rfl, rfl⟩
      | noResponse m =>
        simp only [ErrorDe] at hde
        cases hde
        exact Or.inr ⟨m, rfl, rfl, rfl⟩
    have hren : e.response.isSome = true ∨ e.message.isSome = true := by
      rcases hdet with ⟨r, h1, -⟩ | ⟨m, -, h2, -⟩
      · exact Or.inl (by rw [h1]; rfl)
      · exact Or.inr (by rw [h2]; rfl)
    refine ⟨j, pre, e, rep1, hj1, hj7, hlen, ?_, hde, rfl, hdet, ?_⟩
    · show replyAt srv ((plan B _ _).take j) (j - 1) = some rep1
      rw [replyAt_take srv _ (by omega)]
      exact hrep1
    · intro m w
      rw [mostrarError_run m e w hren]
  | titulo j hj1 hj6 e out hprev hno =>
    right
    have hlen : ((plan B (clienteIdDe B srv) (facturaIdDe B srv)).take j).length = j := by
      rw [List.length_take, plan_length]; omega
    obtain ⟨r, hr, hok, hacc⟩ := hprev (j - 1) (by omega)
    have hj : j - 1 + 1 = j := by omega
    rw [hj] at hacc
    have hrep : replyAt srv ((plan B (clienteIdDe B srv) (facturaIdDe B srv)).take j) (j - 1)
        = some (.response r) := by
      rw [replyAt_take srv _ (by omega)]
      exact hr
    have hid : stringOk (field "id" r.data) = false := by
      rcases hno with ⟨h1, hc⟩ | ⟨h4, hf⟩
      · subst h1
        have e1 : srv [] (reqCrearCliente B) = .response r := Option.some.inj hr
        have c1 : clienteIdDe B srv = field "id" r.data := by
          unfold clienteIdDe; rw [e1]; rfl
        rw [← c1]; exact hc
      · subst h4
        have e4 : srv [reqCrearCliente B, reqObtenerCliente B (clienteIdDe B srv),
            reqListarClientes B] (reqCrearFactura B (clienteIdDe B srv)) = .response r :=
          Option.some.inj hr
        have c4 : facturaIdDe B srv = field "id" r.data := by
          unfold facturaIdDe; rw [e4]; rfl
        rw [← c4]; exact hf
    refine ⟨j, r, out, ?_, hlen, hrep, hok, hacc, hid, rfl⟩
    rcases hno with ⟨h1, -⟩ | ⟨h4, -⟩
    · exact Or.inl h1
    · exact Or.inr h4

/-- Witness of C9 (scenario B): nothing listens; the run aborts and its
output ends in one of the two ways. -/
theorem fallo_registrado_witness :
    (ejecutarPruebas local8080 srvCaido).exit = some 1 ∧
    ((∃ (k : Nat) (pre : List Line) (e : JsError) (rep : Reply),
      1 ≤ k ∧ k ≤ 7 ∧ (ejecutarPruebas local8080 srvCaido).calls.length = k ∧
      replyAt srvCaido (ejecutarPruebas local8080 srvCaido).calls (k - 1) = some rep ∧
      ErrorDe (acepta k) rep e ∧
      (ejecutarPruebas local8080 srvCaido).out =
        pre ++ lineasError (mensajeError k) e ++ seccionError local8080 ∧
      ((∃ r, e.response = some r ∧
          detalleError e = [[.lit "Status:", .status r.status], [.lit "Error:", .json r.data]]) ∨
       (∃ m, e.response = none ∧ e.message = some m ∧
          detalleError e = [[.lit "Error:", .lit m]])) ∧
      ∀ m w, (mostrarError m e w).1 = .ok ()) ∨
    (∃ (k : Nat) (r : Response) (pre : List Line),
      (k = 1 ∨ k = 4) ∧ (ejecutarPruebas local8080 srvCaido).calls.length = k ∧
      replyAt srvCaido (ejecutarPruebas local8080 srvCaido).calls (k - 1)
        = some (.response r) ∧
      validateStatus r.status = true ∧ acepta k r.data = true ∧
      stringOk (field "id" r.data) = false ∧
      (ejecutarPruebas local8080 srvCaido).out = pre ++ seccionError local8080)) :=
  ⟨rfl, fallo_registrado local8080 srvCaido rfl⟩

/-- C6, counterexample.  The API answers create-invoice with 201 and an
`id` that is an object with an own `toString`: step 4 returns it, step 5 is
entered, raises in its title and issues no call; the run ends after four
calls. -/
theorem paso_sin_llamada :
    (probarCreacionFactura local8080 srvFacturaIdRara (some (.num 1))
      ⟨(plan local8080 (some (.num 1)) none).take 3, []⟩).1 = .ok (some idRaro) ∧
    probarObtenerFactura local8080 srvFacturaIdRara (some idRaro)
        ⟨(plan local8080 (some (.num 1)) none).take 4, []⟩ =
      (.error (typeError "Cannot convert object to primitive value"),
        ⟨(plan local8080 (some (.num 1)) none).take 4, []⟩) ∧
    (ejecutarPruebas local8080 srvFacturaIdRara).calls.map rutaDe =
      [ (.POST, [.lit local8080, .lit "/clientes"]),
        (.GET, [.lit local8080, .lit "/clientes/", .tpl (some (.num 1))]),
        (.GET, [.lit local8080, .lit "/clientes"]),
        (.POST, [.lit local8080, .lit "/facturas"]) ] ∧
    (ejecutarPruebas local8080 srvFacturaIdRara).exit = some 1 :=
  ⟨rfl, rfl, rfl, rfl⟩

end Castor
